import Mathlib

set_option maxRecDepth 40000

/-!
Formal model of the `lenovoconsole` package of the lenovo-remote-console
repository (files `console.go` and `template.go`): the session bootstrap
(`NewConsole`, `Initialize`, `Start`, `Stop`, `GetPort`, `GetRPPort`) and the
asset relay (`setupHandlers`, `consoleHandler`, `certHandler`,
`proxySDKHandler`), together with theorems checking the specification's
claims against this model.

Modelling conventions:
* Go strings are Lean `String`s; Go `int` is Lean `Int`.
* `http.Header` values are association lists `List (String × List String)`
  with at most one entry per canonical key, in the iteration order of the
  underlying Go map.
* External effects are explicit environment values: the outcome of the
  remote-presence port probe is an `RPOutcome`, the free-port probe result is
  an `Option Int`, the upstream BMC is a function from requests to `Option`
  responses (`none` models a transport error), and the standard library URL
  parser is a boolean oracle `urlParses` (its failure conditions live in the
  Go standard library, outside this repository).
* `html/template` rendering of the constant `htmlTemplate` is modelled as
  literal placeholder substitution.  Theorems whose truth relies on a value
  passing through the template unchanged restrict that value to characters
  on which Go's contextual escapers act as the identity (`safeStr`).
* The server's main HTML template and the certificate helper page are split
  into chunk constants purely so each chunk is small enough for kernel
  evaluation; the concatenations equal the source literals byte for byte.
-/

/-- Scan of a character list for two consecutive brace characters.  The
template's placeholder tokens all start with a double brace, so a rendered
page whose scan succeeds contains no literal placeholder token. -/
def noBB : List Char → Bool
  | [] => true
  | [_] => true
  | a :: b :: rest => !(a == '\x7b' && b == '\x7b') && noBB (b :: rest)

/-- Byte-wise prefix test on strings (Go `strings.HasPrefix`, and the
subtree match of `net/http.ServeMux` patterns ending in a slash). -/
def strStarts (s pre : String) : Bool := pre.data.isPrefixOf s.data

/-- Byte-wise suffix test on strings (Go `strings.HasSuffix`). -/
def strEnds (s suf : String) : Bool := suf.data.isSuffixOf s.data

/-- The string `t` occurs contiguously inside `s`. -/
def strContains (s t : String) : Prop := t.data <:+: s.data

/-- Characters on which Go `html/template`'s HTML and JavaScript escapers act
as the identity: ASCII letters and digits, dot, hyphen-minus, underscore. -/
def safeChar (c : Char) : Bool := c.isAlphanum || c == '.' || c == '-' || c == '_'

/-- Strings made only of `safeChar` characters pass through the template
engine unchanged. -/
def safeStr (s : String) : Bool := s.data.all safeChar

/-- A character list containing no brace character at all. -/
def notBrace (l : List Char) : Bool := l.all (fun c => c != '\x7b')

/-- Go `http.Header`: an association list from canonical header keys to value
lists, at most one entry per key. -/
abbrev Headers := List (String × List String)

/-- `http.Header.Get`-style access: the value list stored at key `k`
(empty when the key is absent). -/
def headerGet : Headers → String → List String
  | [], _ => []
  | kv :: rest, k => if kv.1 == k then kv.2 else headerGet rest k

/-- `http.Header.Add k v`: append `v` to the values of `k`, creating the
entry if absent. -/
def headerAdd : Headers → String → String → Headers
  | [], k, v => [(k, [v])]
  | kv :: rest, k, v =>
    if kv.1 == k then (kv.1, kv.2 ++ [v]) :: rest else kv :: headerAdd rest k v

/-- `http.Header.Set k v`: replace the values of `k` by the single value `v`,
creating the entry if absent. -/
def headerSet : Headers → String → String → Headers
  | [], k, v => [(k, [v])]
  | kv :: rest, k, v =>
    if kv.1 == k then (k, [v]) :: rest else kv :: headerSet rest k v

/-- Adds every value of `vs` under key `k` (inner loop of the header-copy
code in `proxySDKHandler`). -/
def addValues (h : Headers) (k : String) (vs : List String) : Headers :=
  vs.foldl (fun a v => headerAdd a k v) h

/-- The Go header-copy loop
`for key, values := range src { for _, value := range values { dst.Add(key, value) } }`
(console.go lines 277-281 and 290-294). -/
def copyHeaders (src dst : Headers) : Headers :=
  src.foldl (fun a kv => addValues a kv.1 kv.2) dst

/-- Chunk 0 of tmplSeg0. -/
def tmplSeg0a : String :=
  "<!DOCTYPE html>\n<html>\n<head>\n    <title>Lenovo XCC Remote Console</title>\n    <style>\n        body \x7b\n            margin: 0;\n            padding: 0;\n            background-color: #000;\n            overflow: hidden;\n            font-family: Arial, sans-serif;\n        \x7d\n        #status \x7b\n            position: absolute;\n            top: 10px;\n            left: 10px;\n            color: #fff;\n            background: rgba(0,0,0,0.7);\n            padding: 10px;\n            border-radius: 5px;\n            z-index: 1000;\n            max-width: 500px;\n        \x7d\n        #kvmCanvas \x7b\n            display: block;\n            margin: 0 auto;\n        \x7d\n        .error \x7b\n            color: #ff4444;\n            font-weight: bold;\n        \x7d\n        #certInstructions \x7b\n            position: absolute;\n            top: 10px;\n            right: 10px;\n            color: #fff;\n            background: rgba(0,0,50,0.9);\n            padding: 15px;\n            border-radius: 5px;\n            z-index: 1001;\n        "

/-- Chunk 1 of tmplSeg0. -/
def tmplSeg0b : String :=
  "    max-width: 400px;\n            border: 2px solid #4444ff;\n            display: none;\n        \x7d\n        #certInstructions h3 \x7b\n            margin-top: 0;\n            color: #88aaff;\n        \x7d\n        #certInstructions a \x7b\n            color: #88aaff;\n            text-decoration: underline;\n        \x7d\n        #certInstructions ol \x7b\n            padding-left: 20px;\n        \x7d\n        #certInstructions li \x7b\n            margin-bottom: 10px;\n        \x7d\n        #certInstructions button \x7b\n            background: #4444ff;\n            color: white;\n            border: none;\n            padding: 8px 15px;\n            border-radius: 3px;\n            cursor: pointer;\n            margin-top: 10px;\n        \x7d\n        #certInstructions button:hover \x7b\n            background: #5555ff;\n        \x7d\n    </style>\n</head>\n<body>\n    <div id=\"status\">Initializing console...</div>\n    <canvas id=\"kvmCanvas\"></canvas>\n    \n    <div id=\"certInstructions\">\n        <h3>\u26a0\ufe0f Certificate Issue Detected</h3>\n        <p>The "

/-- Chunk 2 of tmplSeg0. -/
def tmplSeg0c : String :=
  "BMC server is using a self-signed certificate that needs to be accepted.</p>\n        <p><strong>To fix this issue:</strong></p>\n        <ol>\n            <li>Click the button below to open the BMC certificate page</li>\n            <li>You\x27ll see a browser warning about the certificate</li>\n            <li>Click \"Advanced\" or \"Show Details\"</li>\n            <li>Click \"Proceed to "

/-- Literal segment 0 of the console HTML template (lenovoconsole/template.go), the text before the first placeholder. -/
def tmplSeg0 : String :=
  tmplSeg0a ++ tmplSeg0b ++ tmplSeg0c

/-- Literal segment 1 of the console HTML template (lenovoconsole/template.go), the text after placeholder 1. -/
def tmplSeg1 : String :=
  "\" or \"Accept the Risk and Continue\"</li>\n            <li>Come back to this tab and click \"Retry Connection\"</li>\n        </ol>\n        <button onclick=\"acceptCertificate()\">Open BMC Certificate Page</button>\n        <button onclick=\"retryConnection()\">Retry Connection</button>\n        <button onclick=\"document.getElementById(\x27certInstructions\x27).style.display=\x27none\x27\">Close</button>\n    </div>\n\n    <script>\n        // Console configuration\n        const config = \x7b\n            bmcIP: \x27"

/-- Literal segment 2 of the console HTML template (lenovoconsole/template.go), the text after placeholder 2. -/
def tmplSeg2 : String :=
  "\x27,\n            rpPort: "

/-- Literal segment 3 of the console HTML template (lenovoconsole/template.go), the text after placeholder 3. -/
def tmplSeg3 : String :=
  ",\n            bmcUsername: \x27"

/-- Literal segment 4 of the console HTML template (lenovoconsole/template.go), the text after placeholder 4. -/
def tmplSeg4 : String :=
  "\x27,\n            bmcPassword: \x27"

/-- Chunk 0 of tmplSeg5. -/
def tmplSeg5a : String :=
  "\x27\n        \x7d;\n\n        const statusDiv = document.getElementById(\x27status\x27);\n        let scriptsLoaded = 0;\n        const requiredScripts = [\n            \x27/SDK_Pilot4/utility.js\x27,\n            \x27/SDK_Pilot4/rpimage.js\x27, \n            \x27/SDK_Pilot4/rprecorder.js\x27,\n            \x27/SDK_Pilot4/rpviewer.js\x27,\n\t\t\t\x27/SDK_Pilot4/rphandlers.js\x27,\n\t\t\t\x27/SDK_Pilot4/websockethandler.js\x27,\n\t\t\t\x27/SDK_Pilot4/virtualkeyboard.js\x27,\n\t\t\t\x27/SDK_Pilot4/mediaTypes.js\x27,\n\t\t\t\x27/SDK_Pilot4/mediaworkerhandler.js\x27\n        ];\n\n        function updateStatus(message, isError) \x7b\n            statusDiv.innerHTML = message;\n            if (isError) \x7b\n                statusDiv.className = \x27error\x27;\n            \x7d\n        \x7d\n\n        function loadScript(src, callback, errorCallback) \x7b\n            const script = document.createElement(\x27script\x27);\n            script.src = \x27https://\x27 + config.bmcIP + src;\n            script.onload = callback;\n            script.onerror = errorCallback || function() \x7b\n                console.error(\x27Failed to load"

/-- Chunk 1 of tmplSeg5. -/
def tmplSeg5b : String :=
  ":\x27, src);\n            \x7d;\n            document.head.appendChild(script);\n        \x7d\n\n        function loadNextScript(index) \x7b\n            if (index >= requiredScripts.length) \x7b\n                initializeViewer();\n                return;\n            \x7d\n\n            const scriptName = requiredScripts[index].split(\x27/\x27).pop();\n            updateStatus(\x27Loading \x27 + scriptName + \x27... (\x27 + (index + 1) + \x27/\x27 + requiredScripts.length + \x27)\x27);\n\n            loadScript(\n                requiredScripts[index],\n                function() \x7b\n                    console.log(\x27Loaded:\x27, requiredScripts[index]);\n                    loadNextScript(index + 1);\n                \x7d,\n                function() \x7b\n                    // Try alternative path without /designs/imm\n                    const altPath = requiredScripts[index].replace(\x27/designs/imm\x27, \x27\x27);\n                    console.log(\x27Trying alternative path:\x27, altPath);\n                    \n                    loadScript(\n                        altPath,\n"

/-- Chunk 2 of tmplSeg5. -/
def tmplSeg5c : String :=
  "                        function() \x7b\n                            console.log(\x27Loaded from alt path:\x27, altPath);\n                            loadNextScript(index + 1);\n                        \x7d,\n                        function() \x7b\n                            updateStatus(\x27\u274c ERROR: Could not load \x27 + scriptName + \x27<br>\x27 +\n                                       \x27Tried paths:<br>\x27 +\n                                       \x27- https://\x27 + config.bmcIP + requiredScripts[index] + \x27<br>\x27 +\n                                       \x27- https://\x27 + config.bmcIP + altPath + \x27<br><br>\x27 +\n                                       \x27Please check browser console for details.\x27, true);\n                        \x7d\n                    );\n                \x7d\n            );\n        \x7d\n\n        updateStatus(\x27\u26a0\ufe0f Loading Lenovo RPViewer libraries...\x27);\n        loadNextScript(0);\n\n        // Certificate acceptance handler\n        function handleCertificateAcceptance(viewer) \x7b\n            // Note: Direct iframe approach won\x27"

/-- Chunk 3 of tmplSeg5. -/
def tmplSeg5d : String :=
  "t work due to CSP restrictions\n            // The user will need to manually accept the certificate if prompted\n            console.log(\x27Certificate handling will be done through RPViewer dialog\x27);\n        \x7d\n\n        function initializeViewer() \x7b\n            updateStatus(\x27\u2713 All libraries loaded. Initializing viewer...\x27);\n            \n            try \x7b\n                // Check if RPViewer is available\n                if (typeof RPViewer === \x27undefined\x27) \x7b\n                    throw new Error(\x27RPViewer class not found. Check that all scripts loaded correctly.\x27);\n                \x7d\n\n                console.log(\x27Initializing RPViewer...\x27);\n                \n                // Initialize RPViewer (based on the RemoteConsoleWindow.js code)\n                const viewer = new RPViewer(\x27kvmCanvas\x27, viewerAPIErrorCallback);\n                \n                console.log(\x27RPViewer created, configuring...\x27);\n                \n                // Configure viewer\n                viewer.setRPWebSocketTimeo"

/-- Chunk 4 of tmplSeg5. -/
def tmplSeg5e : String :=
  "ut(30);\n                \n                // Certificate handling - try without setting cert file\n                // Since the certificate is already accepted, we might not need this\n                // viewer.setRPCertFileName(\x27/cert.pem\x27);\n                \n                // Set server configuration\n                viewer.setRPServerConfiguration(config.bmcIP, config.rpPort);\n                viewer.setRPEmbeddedViewerSize(window.innerWidth, window.innerHeight - 50);\n                \n                // Connection settings - Multi User Mode\n                viewer.setRPExclusiveLogin(false); // Use multi-user mode (non-exclusive)\n                viewer.setRPAllowSharingRequests(true); // Allow sharing requests for multi-user mode\n                \n                // Input support\n                viewer.setRPMouseInputSupport(true);\n                viewer.setRPTouchInputSupport(true);\n                viewer.setRPKeyboardInputSupport(true);\n                \n                // Debug settings\n"

/-- Chunk 5 of tmplSeg5. -/
def tmplSeg5f : String :=
  "                viewer.setRPDebugMode(true);\n                viewer.setRPDebugLevel(1);\n                \n                // Display settings\n                viewer.setRPMaintainAspectRatio(true);\n                viewer.setRPInitialBackgroundColor(\x27black\x27);\n                viewer.setRPInitialMessageColor(\x27white\x27);\n                viewer.setRPKeyboardLanguage(\x27en\x27);\n                \n                // Reconnection settings\n                viewer.setRPSupportReconnect(true);\n                viewer.setRPLinkInterruptMessageColor(\x27red\x27);\n                viewer.setRPLinkInterruptMessage(\x27Connection interrupted. Attempting to reconnect...\x27);\n                viewer.setRPReconnectingMessage(\x27Reconnecting to remote console...\x27);\n                viewer.setRPInitialMessage(\x27Connecting to remote console...\x27);\n                \n                // Set credentials (using BMC credentials directly)\n                console.log(\x27Setting credentials with BMC user:\x27, config.bmcUsername);\n                view"

/-- Chunk 6 of tmplSeg5. -/
def tmplSeg5g : String :=
  "er.setRPCredential(config.bmcUsername, config.bmcPassword);\n                \n                // Register callbacks\n                viewer.registerRPLoginResponseCallback(loginResponseCallback);\n                viewer.registerRPUIInitCallback(uiInitCallback);\n                viewer.registerRPExitViewerCallback(exitViewerCallback);\n                viewer.registerRPResolutionCallback(resolutionCallback);\n                viewer.registerRPSessionTerminationCallback(sessionTermCallback);\n                \n                // Store viewer globally for debugging\n                window.rpViewer = viewer;\n                \n                // Pre-accept certificate by opening the BMC URL\n                handleCertificateAcceptance(viewer);\n                \n                // Connect after a short delay to allow certificate pre-acceptance\n                updateStatus(\x27Accepting BMC certificate and connecting to \x27 + config.bmcIP + \x27:\x27 + config.rpPort + \x27...\x27);\n                console.log(\x27Preparing to"

/-- Chunk 7 of tmplSeg5. -/
def tmplSeg5h : String :=
  " connect...\x27);\n                \n                setTimeout(() => \x7b\n                    console.log(\x27Calling connectRPViewer...\x27);\n                    viewer.connectRPViewer();\n                \x7d, 1000);\n                \n            \x7d catch (error) \x7b\n                console.error(\x27Initialization error:\x27, error);\n                updateStatus(\x27\u274c ERROR: \x27 + error.message + \x27<br><br>\x27 +\n                           \x27Check browser console (F12) for more details.\x27, true);\n            \x7d\n        \x7d\n\n        function exitViewerCallback() \x7b\n            console.log(\x27Exit viewer callback\x27);\n            updateStatus(\x27Console session ended\x27, true);\n        \x7d\n\n        function resolutionCallback(width, height) \x7b\n            console.log(\x27Resolution:\x27, width + \x27x\x27 + height);\n        \x7d\n\n        function sessionTermCallback(reason) \x7b\n            console.log(\x27Session terminated:\x27, reason);\n            const reasons = \x7b\n                0: \x27Admin termination\x27,\n                1: \x27Timeout\x27,\n                2: \x27We"

/-- Chunk 8 of tmplSeg5. -/
def tmplSeg5i : String :=
  "bSocket error\x27,\n                3: \x27Reboot\x27,\n                4: \x27Upgrade\x27,\n                5: \x27Preempted by another user\x27,\n                6: \x27Unshare\x27,\n                7: \x27Exclusive mode\x27,\n                8: \x27Out of memory\x27\n            \x7d;\n            updateStatus(\x27\u274c Session terminated: \x27 + (reasons[reason] || \x27Unknown reason\x27), true);\n        \x7d\n\n        function loginResponseCallback(result, info) \x7b\n            console.log(\x27Login response:\x27, result);\n            if (result === 0) \x7b // RPViewer.RP_LOGIN_RESULT.LOGIN_SUCCESS\n                updateStatus(\x27\u2713 Connected successfully\x27);\n                document.getElementById(\x27certInstructions\x27).style.display = \x27none\x27;\n                setTimeout(() => \x7b\n                    statusDiv.style.display = \x27none\x27;\n                \x7d, 2000);\n            \x7d else \x7b\n                const errors = \x7b\n                    1: \x27Login denied\x27,\n                    2: \x27Invalid user\x27,\n                    3: \x27Invalid password\x27,\n                    4: \x27Session in use"

/-- Chunk 9 of tmplSeg5. -/
def tmplSeg5j : String :=
  "\x27,\n                    5: \x27Session full\x27,\n                    6: \x27Login timeout\x27,\n                    7: \x27No share available\x27,\n                    11: \x27Login failed\x27,\n                    101: \x27WebSocket exception\x27,\n                    102: \x27Certificate not verified\x27,\n                    103: \x27Certificate timeout\x27\n                \x7d;\n                updateStatus(\x27\u274c Login failed: \x27 + (errors[result] || \x27Unknown error\x27), true);\n                \n                // Show certificate instructions if it\x27s a certificate error\n                if (result === 102 || result === 103) \x7b\n                    document.getElementById(\x27certInstructions\x27).style.display = \x27block\x27;\n                \x7d\n            \x7d\n        \x7d\n        \n        // Function to open BMC certificate page\n        function acceptCertificate() \x7b\n            const certUrl = \x27https://\x27 + config.bmcIP + \x27:\x27 + config.rpPort + \x27/\x27;\n            window.open(certUrl, \x27_blank\x27);\n        \x7d\n        \n        // Function to retry connection\n        "

/-- Chunk 10 of tmplSeg5. -/
def tmplSeg5k : String :=
  "function retryConnection() \x7b\n            if (window.rpViewer) \x7b\n                document.getElementById(\x27certInstructions\x27).style.display = \x27none\x27;\n                updateStatus(\x27Retrying connection...\x27);\n                window.rpViewer.connectRPViewer();\n            \x7d else \x7b\n                location.reload();\n            \x7d\n        \x7d\n\n        function uiInitCallback() \x7b\n            console.log(\x27UI initialized\x27);\n            updateStatus(\x27\u2713 Console initialized\x27);\n        \x7d\n\n        function viewerAPIErrorCallback(code, error) \x7b\n            console.error(\x27Viewer API error:\x27, code, error);\n            updateStatus(\x27\u274c Viewer error: \x27 + error, true);\n        \x7d\n\n        // Handle window resize\n        window.addEventListener(\x27resize\x27, function() \x7b\n            if (window.rpViewer && window.rpViewer.setRPEmbeddedViewerSize) \x7b\n                const canvas = document.getElementById(\x27kvmCanvas\x27);\n                window.rpViewer.setRPEmbeddedViewerSize(\n                    window.innerWidth,\n      "

/-- Chunk 11 of tmplSeg5. -/
def tmplSeg5l : String :=
  "              window.innerHeight\n                );\n            \x7d\n        \x7d);\n        \n        // Handle certificate acceptance messages from popup windows\n        window.addEventListener(\x27message\x27, function(event) \x7b\n            console.log(\x27Received message:\x27, event.data);\n            \n            // Check for various certificate acceptance message formats\n            if (event.data === \x27CERT_ACCEPTED\x27 || \n                (event.data && event.data.accepted) ||\n                (event.data && event.data.type === \x27certificate\x27 && event.data.action === \x27accept\x27)) \x7b\n                \n                console.log(\x27Certificate accepted via popup\x27);\n                \n                // If RPViewer has a method to handle certificate acceptance\n                if (window.rpViewer && window.rpViewer.onCertificateAccepted) \x7b\n                    try \x7b\n                        window.rpViewer.onCertificateAccepted();\n                    \x7d catch(e) \x7b\n                        console.log(\x27Could not call o"

/-- Chunk 12 of tmplSeg5. -/
def tmplSeg5m : String :=
  "nCertificateAccepted:\x27, e);\n                    \x7d\n                \x7d\n            \x7d\n        \x7d);\n        \n        // Function that might be called by the certificate popup\n        window.rpCertAccepted = function() \x7b\n            console.log(\x27Certificate accepted callback triggered\x27);\n        \x7d;\n    </script>\n</body>\n</html>"

/-- Literal segment 5 of the console HTML template (lenovoconsole/template.go), the text after placeholder 5. -/
def tmplSeg5 : String :=
  tmplSeg5a ++ tmplSeg5b ++ tmplSeg5c ++ tmplSeg5d ++ tmplSeg5e ++ tmplSeg5f ++ tmplSeg5g ++ tmplSeg5h ++ tmplSeg5i ++ tmplSeg5j ++ tmplSeg5k ++ tmplSeg5l ++ tmplSeg5m

/-- Chunk 0 of certHTML. -/
def certHTMLa : String :=
  "<!DOCTYPE html>\n<html>\n<head>\n    <title>Certificate Acceptance</title>\n    <script>\n        function acceptCertificate() \x7b\n            if (window.opener && !window.opener.closed) \x7b\n                try \x7b\n                    window.opener.postMessage(\x7b\n                        type: \x27certificate\x27,\n                        action: \x27accept\x27,\n                        accepted: true\n                    \x7d, \x27*\x27);\n                    window.opener.postMessage(\x27CERT_ACCEPTED\x27, \x27*\x27);\n                \x7d catch(e) \x7b\n                    console.log(\x27Could not post message to opener:\x27, e);\n                \x7d\n            \x7d\n            \n            try \x7b\n                localStorage.setItem(\x27rpviewer_cert_accepted\x27, \x27true\x27);\n            \x7d catch(e) \x7b\n                console.log(\x27Could not set localStorage:\x27, e);\n            \x7d\n            \n            if (window.opener && window.opener.rpCertAccepted) \x7b\n                try \x7b\n                    window.opener.rpCertAccepted();\n                \x7d catch(e) \x7b\n    "

/-- Chunk 1 of certHTML. -/
def certHTMLb : String :=
  "                console.log(\x27Could not call rpCertAccepted:\x27, e);\n                \x7d\n            \x7d\n            \n            setTimeout(function() \x7b\n                window.close();\n            \x7d, 100);\n        \x7d\n        \n        window.onload = acceptCertificate;\n        acceptCertificate();\n    </script>\n</head>\n<body style=\"font-family: Arial, sans-serif; padding: 20px;\">\n    <h3>Certificate Handler</h3>\n    <p>The SSL certificate has been accepted. This window will close automatically.</p>\n</body>\n</html>"

/-- The fixed certificate-acceptance helper page served at /cert.pem (certHandler in console.go). -/
def certHTML : String :=
  certHTMLa ++ certHTMLb

/-- `ConsoleConfig` (console.go lines 32-39): configuration of one console
session. -/
structure ConsoleConfig where
  BMCIP : String
  Username : String
  Password : String
  RPPort : Int
  UseFirefox : Bool
  ServerPort : Int
deriving DecidableEq

/-- Handle to the running `http.Server` created by `Start`. -/
structure ServerHandle where
  addr : String
deriving DecidableEq

/-- `Console` (console.go lines 42-48).  The `mux` field is modelled by
`handlersInstalled`: whether `setupHandlers` has registered the handler set
(an empty `ServeMux` answers 404 to everything). -/
structure Console where
  config : ConsoleConfig
  serverPort : Int
  server : Option ServerHandle
  consoleHTML : String
  handlersInstalled : Bool
deriving DecidableEq

/-- `NewConsole` (console.go lines 51-56). -/
def NewConsole (config : ConsoleConfig) : Console :=
  { config := config, serverPort := 0, server := none, consoleHTML := "",
    handlersInstalled := false }

/-- `generateHTML` (console.go lines 209-234): renders `htmlTemplate` with
the session's BMC address (twice), remote-presence port, username and
password substituted for the five template actions, in source order. -/
def generateHTML (cfg : ConsoleConfig) : String :=
  tmplSeg0 ++ cfg.BMCIP ++ tmplSeg1 ++ cfg.BMCIP ++ tmplSeg2 ++
    Int.repr cfg.RPPort ++ tmplSeg3 ++ cfg.Username ++ tmplSeg4 ++
    cfg.Password ++ tmplSeg5

/-- Outcome of the single GET probe to `https://<bmc>/api/providers/rp_port`
issued by `GetRPPort`: request construction failed, the round trip failed,
or a response arrived whose decoded `port` field is the given integer
(`0` when the body failed to decode, since `json.Decode`'s error is ignored
and the zero value is kept). -/
inductive RPOutcome where
  | buildFailed
  | transportFailed
  | response (port : Int)
deriving DecidableEq

/-- `GetRPPort` (console.go lines 60-88): returns the decoded port when it is
positive and the default 3900 otherwise; the returned error is `nil` on
every path. -/
def GetRPPort : RPOutcome → Int × Option String
  | RPOutcome.buildFailed => (3900, none)
  | RPOutcome.transportFailed => (3900, none)
  | RPOutcome.response port => if port > 0 then (port, none) else (3900, none)

/-- Errors `Initialize` can report.  `rpLookup` tags
"failed to get RP port: ..." and `portAlloc` tags
"failed to find available port: ...".  Template rendering of the constant
`htmlTemplate` cannot fail at run time, so it has no error tag. -/
inductive InitError where
  | rpLookup
  | portAlloc
deriving DecidableEq

/-- Environment consumed by `Initialize`: the outcome of the remote-presence
port probe and the result of `findAvailablePort` (console.go lines 479-488,
`none` models a bind error). -/
structure InitEnv where
  rp : RPOutcome
  osPort : Option Int
deriving DecidableEq

/-- Tail of `Initialize` after the remote-presence port is resolved
(console.go lines 101-120): render the page, resolve the listen port, and
install the handlers. -/
def initRest (c : Console) (env : InitEnv) : Console × Option InitError :=
  if c.config.ServerPort = 0 then
    match env.osPort with
    | none => ({ c with consoleHTML := generateHTML c.config }, some InitError.portAlloc)
    | some p =>
      ({ c with
          consoleHTML := generateHTML c.config
          serverPort := p
          handlersInstalled := true }, none)
  else
    ({ c with
        consoleHTML := generateHTML c.config
        serverPort := c.config.ServerPort
        handlersInstalled := true }, none)

/-- `Initialize` (console.go lines 91-121), renamed `initConsole` here: fill
the remote-presence port if unset, render the page, resolve the listen port,
install handlers. -/
def initConsole (c : Console) (env : InitEnv) : Console × Option InitError :=
  if c.config.RPPort = 0 then
    match GetRPPort env.rp with
    | (_, some _) => (c, some InitError.rpLookup)
    | (port, none) =>
      initRest { c with config := { c.config with RPPort := port } } env
  else initRest c env

/-- `Start` (console.go lines 125-144): unconditionally builds a fresh
`http.Server` on `:<serverPort>`, serves it on a background goroutine whose
errors are only logged, and returns `nil`. -/
def Start (c : Console) : Console × Option String :=
  ({ c with server := some { addr := ":" ++ Int.repr c.serverPort } }, none)

/-- `http.Server.Close` on the handle created by `Start`; its error is `nil`
in the modelled situations. -/
def serverClose (_h : ServerHandle) : Option String := none

/-- `Stop` (console.go lines 147-152). -/
def Stop (c : Console) : Console × Option String :=
  match c.server with
  | some h => (c, serverClose h)
  | none => (c, none)

/-- `GetPort` (console.go lines 160-162). -/
def GetPort (c : Console) : Int := c.serverPort

/-- An inbound HTTP request as seen by the relay. -/
structure Request where
  method : String
  path : String
  headers : Headers
  body : String
deriving DecidableEq

/-- The response written back to the caller. -/
structure Response where
  status : Nat
  headers : Headers
  body : String
deriving DecidableEq

/-- The request `proxySDKHandler` sends to the BMC. -/
structure UpstreamRequest where
  method : String
  url : String
  headers : Headers
  body : String
deriving DecidableEq

/-- The BMC's answer to a proxied request. -/
structure UpstreamResponse where
  status : Nat
  headers : Headers
  body : String
deriving DecidableEq

/-- Network environment of a request handler: the upstream BMC (`none`
models a `client.Do` transport error) and the `net/url` parse oracle used by
`http.NewRequest`. -/
structure NetEnv where
  upstream : UpstreamRequest → Option UpstreamResponse
  urlParses : String → Bool

/-- Token characters accepted in an HTTP method by net/http's method
validation (RFC 7230 token characters). -/
def isTokenChar (c : Char) : Bool :=
  c.isAlphanum || c == '!' || c == '#' || c == '$' || c == '%' || c == '&' ||
    c == '\x27' || c == '*' || c == '+' || c == '-' || c == '.' || c == '^' ||
    c == '_' || c == '\x60' || c == '|' || c == '~'

/-- net/http's method validation inside `http.NewRequest`. -/
def validMethod (m : String) : Bool := !m.isEmpty && m.data.all isTokenChar

/-- `http.Error(w, msg, code)`: plain-text diagnostic response. -/
def httpError (msg : String) (code : Nat) : Response :=
  { status := code,
    headers := [("Content-Type", ["text/plain; charset=utf-8"]),
                ("X-Content-Type-Options", ["nosniff"])],
    body := msg ++ "\n" }

/-- The `ServeMux` fallback `NotFoundHandler`. -/
def notFoundResponse : Response := httpError "404 page not found" 404

/-- The `ServeMux` trailing-slash redirect (301 to `loc`).  Headers other
than Location and the anchor body are omitted: no claim concerns them. -/
def redirectResponse (loc : String) : Response :=
  { status := 301, headers := [("Location", [loc])], body := "" }

/-- `consoleHandler` (console.go lines 256-259): the rendered page,
content-type text/html, implicit status 200. -/
def consoleResponse (c : Console) : Response :=
  { status := 200, headers := [("Content-Type", ["text/html"])],
    body := c.consoleHTML }

/-- `certHandler` (console.go lines 426-476): the fixed helper page,
content-type text/html, implicit status 200. -/
def certResponse : Response :=
  { status := 200, headers := [("Content-Type", ["text/html"])],
    body := certHTML }

/-- Which of the three handlers a pattern routes to. -/
inductive HandlerTag where
  | console
  | cert
  | proxy
deriving DecidableEq

/-- Result of `ServeMux` routing. -/
inductive RouteResult where
  | handle (h : HandlerTag)
  | redirect (loc : String)
  | notFound
deriving DecidableEq

/-- The patterns registered by `setupHandlers` (console.go lines 237-253),
with the handler each one routes to. -/
def muxPatterns : List (String × HandlerTag) :=
  [("/", HandlerTag.console), ("/cert.pem", HandlerTag.cert),
   ("/SDK_Pilot4/", HandlerTag.proxy),
   ("/offscreenworker.js", HandlerTag.proxy), ("/mouseworker.js", HandlerTag.proxy),
   ("/utility.js", HandlerTag.proxy), ("/mediaTypes.js", HandlerTag.proxy),
   ("/rphandlers.js", HandlerTag.proxy), ("/websockethandler.js", HandlerTag.proxy),
   ("/virtualkeyboard.js", HandlerTag.proxy), ("/mediaworkerhandler.js", HandlerTag.proxy)]

/-- Exact-pattern lookup of `ServeMux` (the `mux.m[path]` map hit). -/
def lookupExact (path : String) : Option HandlerTag :=
  (muxPatterns.find? (fun kv => kv.1 == path)).map (fun kv => kv.2)

/-- Longest matching subtree pattern (patterns ending in a slash, longest
first): `/SDK_Pilot4/` before `/`. -/
def subtreeMatch (path : String) : Option HandlerTag :=
  if strStarts path "/SDK_Pilot4/" then some HandlerTag.proxy
  else if strStarts path "/" then some HandlerTag.console
  else none

/-- `net/http.ServeMux` routing over `muxPatterns`, for already-clean
request paths: exact hit first, then the trailing-slash redirect (the only
pattern it can fire for here is `/SDK_Pilot4`), then longest subtree
pattern, else the 404 fallback. -/
def muxHandler (path : String) : RouteResult :=
  match lookupExact path with
  | some h => RouteResult.handle h
  | none =>
    if path != "" && !(strEnds path "/") && (lookupExact (path ++ "/")).isSome then
      RouteResult.redirect (path ++ "/")
    else
      match subtreeMatch path with
      | some h => RouteResult.handle h
      | none => RouteResult.notFound

/-- `proxySDKHandler` (console.go lines 262-304): build an upstream request
to `https://<bmc><path>` with the inbound method, copies of all inbound
headers, and an explicitly empty (`nil`) body; on success copy status,
headers and body back, forcing the JavaScript content type for `.js` paths;
on failure answer 500 with a short diagnostic.  The second component lists
the upstream requests issued. -/
def proxySDKHandler (c : Console) (net : NetEnv) (r : Request) :
    Response × List UpstreamRequest :=
  if validMethod r.method && net.urlParses ("https://" ++ c.config.BMCIP ++ r.path) then
    match net.upstream ⟨r.method, "https://" ++ c.config.BMCIP ++ r.path,
        copyHeaders r.headers [], ""⟩ with
    | none =>
      (httpError "Failed to fetch from BMC" 500,
       [⟨r.method, "https://" ++ c.config.BMCIP ++ r.path, copyHeaders r.headers [], ""⟩])
    | some resp =>
      ({ status := resp.status,
         headers :=
           if strEnds r.path ".js" then
             headerSet (copyHeaders resp.headers []) "Content-Type" "application/javascript"
           else copyHeaders resp.headers [],
         body := resp.body },
       [⟨r.method, "https://" ++ c.config.BMCIP ++ r.path, copyHeaders r.headers [], ""⟩])
  else (httpError "Failed to create request" 500, [])

/-- One request through the console's HTTP surface: route with `muxHandler`
and run the selected handler.  The second component lists the upstream
requests issued while answering. -/
def serve (c : Console) (net : NetEnv) (r : Request) :
    Response × List UpstreamRequest :=
  if c.handlersInstalled then
    match muxHandler r.path with
    | RouteResult.handle HandlerTag.console => (consoleResponse c, [])
    | RouteResult.handle HandlerTag.cert => (certResponse, [])
    | RouteResult.handle HandlerTag.proxy => proxySDKHandler c net r
    | RouteResult.redirect loc => (redirectResponse loc, [])
    | RouteResult.notFound => (notFoundResponse, [])
  else (notFoundResponse, [])

/-- The fixed allow-list of proxied sub-paths: the `/SDK_Pilot4/` subtree and
the eight worker-script names (claims C1, C3, C10). -/
def isAllowListedPath (p : String) : Bool :=
  strStarts p "/SDK_Pilot4/" ||
    p == "/offscreenworker.js" || p == "/mouseworker.js" || p == "/utility.js" ||
    p == "/mediaTypes.js" || p == "/rphandlers.js" || p == "/websockethandler.js" ||
    p == "/virtualkeyboard.js" || p == "/mediaworkerhandler.js"

/-- Concrete configuration used by witnesses and counterexamples: explicit
remote-presence and listen ports. -/
def cfgW : ConsoleConfig :=
  { BMCIP := "192.0.2.1", Username := "USERID", Password := "PASSW0RD",
    RPPort := 3900, UseFirefox := false, ServerPort := 8443 }

/-- Like `cfgW` but with both ports unset (0). -/
def cfgW0 : ConsoleConfig :=
  { BMCIP := "192.0.2.1", Username := "USERID", Password := "PASSW0RD",
    RPPort := 0, UseFirefox := false, ServerPort := 0 }

/-- Like `cfgW` but with the remote-presence port unset. -/
def cfgWrp0 : ConsoleConfig :=
  { BMCIP := "192.0.2.1", Username := "USERID", Password := "PASSW0RD",
    RPPort := 0, UseFirefox := false, ServerPort := 8443 }

/-- Like `cfgW` but with an out-of-range listen port. -/
def cfgBadPort : ConsoleConfig :=
  { BMCIP := "192.0.2.1", Username := "USERID", Password := "PASSW0RD",
    RPPort := 3900, UseFirefox := false, ServerPort := 70000 }

/-- Configuration whose BMC address is itself a literal template placeholder
token. -/
def cfgInject : ConsoleConfig :=
  { BMCIP := "\x7b\x7b.BMCUsername\x7d\x7d", Username := "USERID",
    Password := "PASSW0RD", RPPort := 3900, UseFirefox := false,
    ServerPort := 8443 }

/-- Initialization environment: upstream decodes port 0, OS offers 49152. -/
def envW : InitEnv := { rp := RPOutcome.response 0, osPort := some 49152 }

/-- Initialization environment: upstream decodes port 3901. -/
def envW3901 : InitEnv := { rp := RPOutcome.response 3901, osPort := some 49152 }

/-- Initialization environment: the probe transport fails and the OS offers
no port. -/
def envWfail : InitEnv := { rp := RPOutcome.transportFailed, osPort := none }

/-- Upstream response used by the proxy witnesses. -/
def respW : UpstreamResponse :=
  { status := 200, headers := [("X-Frame-Options", ["DENY"])],
    body := "console.log(1)" }

/-- Network environment whose upstream serves `respW` for the utility.js URL
and errors otherwise; the URL parser accepts everything. -/
def netW : NetEnv :=
  { upstream := fun q => if q.url == "https://192.0.2.1/utility.js" then some respW else none,
    urlParses := fun _ => true }

/-- Network environment whose upstream always fails. -/
def netNone : NetEnv :=
  { upstream := fun _ => none, urlParses := fun _ => true }

/-- A plain GET request for the root path. -/
def reqRoot : Request := { method := "GET", path := "/", headers := [], body := "" }

/-- A GET request for an allow-listed script path, carrying a header and a
body. -/
def reqJS : Request :=
  { method := "GET", path := "/utility.js", headers := [("Accept", ["*/*"])],
    body := "caller-supplied-body" }

/-- A GET request for a path outside the allow-list. -/
def reqOther : Request :=
  { method := "GET", path := "/doesnotexist", headers := [], body := "" }

theorem noBB_tmplSeg0a : noBB tmplSeg0a.data = true := by decide

theorem headNotBrace_tmplSeg0a : tmplSeg0a.data.head? ≠ some '\x7b' := by decide

theorem noBB_tmplSeg0b : noBB tmplSeg0b.data = true := by decide

theorem headNotBrace_tmplSeg0b : tmplSeg0b.data.head? ≠ some '\x7b' := by decide

theorem noBB_tmplSeg0c : noBB tmplSeg0c.data = true := by decide

theorem headNotBrace_tmplSeg0c : tmplSeg0c.data.head? ≠ some '\x7b' := by decide

theorem noBB_tmplSeg1 : noBB tmplSeg1.data = true := by decide

theorem headNotBrace_tmplSeg1 : tmplSeg1.data.head? ≠ some '\x7b' := by decide

theorem noBB_tmplSeg2 : noBB tmplSeg2.data = true := by decide

theorem headNotBrace_tmplSeg2 : tmplSeg2.data.head? ≠ some '\x7b' := by decide

theorem noBB_tmplSeg3 : noBB tmplSeg3.data = true := by decide

theorem headNotBrace_tmplSeg3 : tmplSeg3.data.head? ≠ some '\x7b' := by decide

theorem noBB_tmplSeg4 : noBB tmplSeg4.data = true := by decide

theorem headNotBrace_tmplSeg4 : tmplSeg4.data.head? ≠ some '\x7b' := by decide

theorem noBB_tmplSeg5a : noBB tmplSeg5a.data = true := by decide

theorem headNotBrace_tmplSeg5a : tmplSeg5a.data.head? ≠ some '\x7b' := by decide

theorem noBB_tmplSeg5b : noBB tmplSeg5b.data = true := by decide

theorem headNotBrace_tmplSeg5b : tmplSeg5b.data.head? ≠ some '\x7b' := by decide

theorem noBB_tmplSeg5c : noBB tmplSeg5c.data = true := by decide

theorem headNotBrace_tmplSeg5c : tmplSeg5c.data.head? ≠ some '\x7b' := by decide

theorem noBB_tmplSeg5d : noBB tmplSeg5d.data = true := by decide

theorem headNotBrace_tmplSeg5d : tmplSeg5d.data.head? ≠ some '\x7b' := by decide

theorem noBB_tmplSeg5e : noBB tmplSeg5e.data = true := by decide

theorem headNotBrace_tmplSeg5e : tmplSeg5e.data.head? ≠ some '\x7b' := by decide

theorem noBB_tmplSeg5f : noBB tmplSeg5f.data = true := by decide

theorem headNotBrace_tmplSeg5f : tmplSeg5f.data.head? ≠ some '\x7b' := by decide

theorem noBB_tmplSeg5g : noBB tmplSeg5g.data = true := by decide

theorem headNotBrace_tmplSeg5g : tmplSeg5g.data.head? ≠ some '\x7b' := by decide

theorem noBB_tmplSeg5h : noBB tmplSeg5h.data = true := by decide

theorem headNotBrace_tmplSeg5h : tmplSeg5h.data.head? ≠ some '\x7b' := by decide

theorem noBB_tmplSeg5i : noBB tmplSeg5i.data = true := by decide

theorem headNotBrace_tmplSeg5i : tmplSeg5i.data.head? ≠ some '\x7b' := by decide

theorem noBB_tmplSeg5j : noBB tmplSeg5j.data = true := by decide

theorem headNotBrace_tmplSeg5j : tmplSeg5j.data.head? ≠ some '\x7b' := by decide

theorem noBB_tmplSeg5k : noBB tmplSeg5k.data = true := by decide

theorem headNotBrace_tmplSeg5k : tmplSeg5k.data.head? ≠ some '\x7b' := by decide

theorem noBB_tmplSeg5l : noBB tmplSeg5l.data = true := by decide

theorem headNotBrace_tmplSeg5l : tmplSeg5l.data.head? ≠ some '\x7b' := by decide

theorem noBB_tmplSeg5m : noBB tmplSeg5m.data = true := by decide

theorem headNotBrace_tmplSeg5m : tmplSeg5m.data.head? ≠ some '\x7b' := by decide




/-! Lemmas about the double-brace scan `noBB`. -/

theorem noBB_cons_tail {a : Char} {l : List Char} (h : noBB (a :: l) = true) :
    noBB l = true := by
  cases l with
  | nil => rfl
  | cons b t =>
    simp only [noBB, Bool.and_eq_true] at h
    exact h.2

theorem noBB_append_chars {x y : List Char} (hx : noBB x = true) (hy : noBB y = true)
    (hh : y.head? ≠ some '\x7b') : noBB (x ++ y) = true := by
  induction x with
  | nil => simpa using hy
  | cons a t ih =>
    cases t with
    | nil =>
      cases y with
      | nil => rfl
      | cons b ys =>
        have hb : b ≠ '\x7b' := by
          intro e
          exact hh (by simp [e])
        simp only [List.cons_append, List.nil_append, noBB, Bool.and_eq_true]
        refine ⟨by simp [hb], hy⟩
    | cons c t' =>
      have hpair : (!(a == '\x7b' && c == '\x7b')) = true := by
        simp only [noBB, Bool.and_eq_true] at hx
        exact hx.1
      have htail : noBB (c :: t' ++ y) = true := by
        simpa using ih (noBB_cons_tail hx)
      simp only [List.cons_append, noBB, Bool.and_eq_true]
      exact ⟨hpair, by simpa using htail⟩

theorem noBB_doublebrace_false (s t : List Char) :
    noBB (s ++ '\x7b' :: '\x7b' :: t) = false := by
  induction s with
  | nil => simp [noBB]
  | cons a s' ih =>
    rw [List.cons_append]
    cases hs : noBB (a :: (s' ++ '\x7b' :: '\x7b' :: t)) with
    | false => rfl
    | true =>
      have h2 := noBB_cons_tail hs
      rw [ih] at h2
      cases h2

theorem not_infix_doublebrace {l : List Char} (h : noBB l = true) :
    ¬ (['\x7b', '\x7b'] <:+: l) := by
  rintro ⟨s, t, rfl⟩
  rw [show s ++ ['\x7b', '\x7b'] ++ t = s ++ '\x7b' :: '\x7b' :: t by simp] at h
  rw [noBB_doublebrace_false] at h
  cases h

theorem not_contains_token {s t : String} (hs : noBB s.data = true)
    (ht : ['\x7b', '\x7b'] <+: t.data) : ¬ strContains s t := by
  intro hc
  exact not_infix_doublebrace hs (ht.isInfix.trans hc)

/-! Lemmas about brace-free strings and template-safe strings. -/

theorem notBrace_append (x y : List Char) :
    notBrace (x ++ y) = (notBrace x && notBrace y) := by
  simp [notBrace, List.all_append]

theorem noBB_of_notBrace {l : List Char} (h : notBrace l = true) : noBB l = true := by
  induction l with
  | nil => rfl
  | cons a t ih =>
    simp only [notBrace, List.all_cons, Bool.and_eq_true] at h
    have ha : a ≠ '\x7b' := by simpa using h.1
    cases t with
    | nil => rfl
    | cons b t' =>
      simp only [noBB, Bool.and_eq_true]
      exact ⟨by simp [ha], ih h.2⟩

theorem headNot_of_notBrace {l : List Char} (h : notBrace l = true) :
    l.head? ≠ some '\x7b' := by
  cases l with
  | nil => simp
  | cons a t =>
    simp only [notBrace, List.all_cons, Bool.and_eq_true] at h
    have ha : a ≠ '\x7b' := by simpa using h.1
    simpa using ha

theorem notBrace_of_safe {s : String} (h : safeStr s = true) : notBrace s.data = true := by
  simp only [safeStr, List.all_eq_true] at h
  simp only [notBrace, List.all_eq_true]
  intro c hc
  have hsc := h c hc
  simp only [bne_iff_ne, ne_eq]
  intro e
  rw [e] at hsc
  exact absurd hsc (by decide)

theorem noBB_of_safeStr {s : String} (h : safeStr s = true) : noBB s.data = true :=
  noBB_of_notBrace (notBrace_of_safe h)

theorem headNot_of_safeStr {s : String} (h : safeStr s = true) :
    s.data.head? ≠ some '\x7b' :=
  headNot_of_notBrace (notBrace_of_safe h)

/-! The decimal rendering of an integer is brace-free. -/

theorem digitChar_ne_brace (n : Nat) : Nat.digitChar n ≠ '\x7b' := by
  by_cases hn : n < 16
  · exact (by decide : ∀ m, m < 16 → Nat.digitChar m ≠ '\x7b') n hn
  · have hne : ∀ k : Nat, k < 16 → ¬ n = k := fun k hk e => by omega
    unfold Nat.digitChar
    rw [if_neg (hne 0 (by decide)), if_neg (hne 1 (by decide)),
      if_neg (hne 2 (by decide)), if_neg (hne 3 (by decide)),
      if_neg (hne 4 (by decide)), if_neg (hne 5 (by decide)),
      if_neg (hne 6 (by decide)), if_neg (hne 7 (by decide)),
      if_neg (hne 8 (by decide)), if_neg (hne 9 (by decide)),
      if_neg (hne 10 (by decide)), if_neg (hne 11 (by decide)),
      if_neg (hne 12 (by decide)), if_neg (hne 13 (by decide)),
      if_neg (hne 14 (by decide)), if_neg (hne 15 (by decide))]
    decide

theorem toDigitsCore_notBrace (b : Nat) :
    ∀ (f n : Nat) (acc : List Char), notBrace acc = true →
      notBrace (Nat.toDigitsCore b f n acc) = true := by
  intro f
  induction f with
  | zero =>
    intro n acc h
    simpa [Nat.toDigitsCore] using h
  | succ f ih =>
    intro n acc h
    have hd : notBrace (Nat.digitChar (n % b) :: acc) = true := by
      simp only [notBrace, List.all_cons, Bool.and_eq_true]
      exact ⟨by simpa using digitChar_ne_brace (n % b), h⟩
    rw [Nat.toDigitsCore]
    split
    · exact hd
    · exact ih _ _ hd

theorem notBrace_natRepr (n : Nat) : notBrace (Nat.repr n).data = true := by
  unfold Nat.repr Nat.toDigits
  exact toDigitsCore_notBrace 10 (n + 1) n [] rfl

theorem notBrace_intRepr (i : Int) : notBrace (Int.repr i).data = true := by
  cases i with
  | ofNat m => exact notBrace_natRepr m
  | negSucc m =>
    show notBrace (("-" ++ Nat.repr (m + 1) : String)).data = true
    rw [String.data_append, notBrace_append, Bool.and_eq_true]
    exact ⟨by decide, notBrace_natRepr (m + 1)⟩

theorem noBB_intRepr (i : Int) : noBB (Int.repr i).data = true :=
  noBB_of_notBrace (notBrace_intRepr i)

theorem headNot_intRepr (i : Int) : (Int.repr i).data.head? ≠ some '\x7b' :=
  headNot_of_notBrace (notBrace_intRepr i)

/-! The template segments pass the double-brace scan. -/

theorem noBB_str_append {s t : String} (hs : noBB s.data = true) (ht : noBB t.data = true)
    (hh : t.data.head? ≠ some '\x7b') : noBB (s ++ t).data = true := by
  rw [String.data_append]
  exact noBB_append_chars hs ht hh

theorem noBB_tmplSeg0 : noBB tmplSeg0.data = true := by
  unfold tmplSeg0
  exact noBB_str_append
    (noBB_str_append noBB_tmplSeg0a noBB_tmplSeg0b headNotBrace_tmplSeg0b)
    noBB_tmplSeg0c headNotBrace_tmplSeg0c

theorem noBB_tmplSeg5 : noBB tmplSeg5.data = true := by
  unfold tmplSeg5
  have h1 := noBB_str_append noBB_tmplSeg5a noBB_tmplSeg5b headNotBrace_tmplSeg5b
  have h2 := noBB_str_append h1 noBB_tmplSeg5c headNotBrace_tmplSeg5c
  have h3 := noBB_str_append h2 noBB_tmplSeg5d headNotBrace_tmplSeg5d
  have h4 := noBB_str_append h3 noBB_tmplSeg5e headNotBrace_tmplSeg5e
  have h5 := noBB_str_append h4 noBB_tmplSeg5f headNotBrace_tmplSeg5f
  have h6 := noBB_str_append h5 noBB_tmplSeg5g headNotBrace_tmplSeg5g
  have h7 := noBB_str_append h6 noBB_tmplSeg5h headNotBrace_tmplSeg5h
  have h8 := noBB_str_append h7 noBB_tmplSeg5i headNotBrace_tmplSeg5i
  have h9 := noBB_str_append h8 noBB_tmplSeg5j headNotBrace_tmplSeg5j
  have h10 := noBB_str_append h9 noBB_tmplSeg5k headNotBrace_tmplSeg5k
  have h11 := noBB_str_append h10 noBB_tmplSeg5l headNotBrace_tmplSeg5l
  exact noBB_str_append h11 noBB_tmplSeg5m headNotBrace_tmplSeg5m

theorem headNotBrace_tmplSeg5 : tmplSeg5.data.head? ≠ some '\x7b' := by decide

/-! Lemmas about the header operations. -/

theorem headerGet_add_self (h : Headers) (k v : String) :
    headerGet (headerAdd h k v) k = headerGet h k ++ [v] := by
  induction h with
  | nil => simp [headerAdd, headerGet]
  | cons kv rest ih =>
    by_cases e : kv.1 = k
    · simp [headerAdd, headerGet, e]
    · simp [headerAdd, headerGet, e, ih]

theorem headerGet_add_other (h : Headers) (k v k' : String) (hne : k' ≠ k) :
    headerGet (headerAdd h k v) k' = headerGet h k' := by
  induction h with
  | nil => simp [headerAdd, headerGet, Ne.symm hne]
  | cons kv rest ih =>
    by_cases e : kv.1 = k
    · simp [headerAdd, headerGet, e, Ne.symm hne]
    · by_cases e' : kv.1 = k'
      · simp [headerAdd, headerGet, e, e', hne]
      · simp [headerAdd, headerGet, e, e', ih]

theorem headerGet_set_self (h : Headers) (k v : String) :
    headerGet (headerSet h k v) k = [v] := by
  induction h with
  | nil => simp [headerSet, headerGet]
  | cons kv rest ih =>
    by_cases e : kv.1 = k
    · simp [headerSet, headerGet, e]
    · simp [headerSet, headerGet, e, ih]

theorem headerGet_set_other (h : Headers) (k v k' : String) (hne : k' ≠ k) :
    headerGet (headerSet h k v) k' = headerGet h k' := by
  induction h with
  | nil => simp [headerSet, headerGet, Ne.symm hne]
  | cons kv rest ih =>
    by_cases e : kv.1 = k
    · simp [headerSet, headerGet, e, Ne.symm hne]
    · by_cases e' : kv.1 = k'
      · simp [headerSet, headerGet, e, e', hne]
      · simp [headerSet, headerGet, e, e', ih]

theorem headerGet_addValues_self (vs : List String) (h : Headers) (k : String) :
    headerGet (addValues h k vs) k = headerGet h k ++ vs := by
  induction vs generalizing h with
  | nil => simp [addValues]
  | cons v vs ih =>
    have step : addValues h k (v :: vs) = addValues (headerAdd h k v) k vs := rfl
    rw [step, ih, headerGet_add_self]
    simp

theorem headerGet_addValues_other (vs : List String) (h : Headers) (k k' : String)
    (hne : k' ≠ k) :
    headerGet (addValues h k vs) k' = headerGet h k' := by
  induction vs generalizing h with
  | nil => simp [addValues]
  | cons v vs ih =>
    have step : addValues h k (v :: vs) = addValues (headerAdd h k v) k vs := rfl
    rw [step, ih, headerGet_add_other _ _ _ _ hne]

theorem headerGet_of_not_mem (h : Headers) (k : String) (hk : k ∉ h.map Prod.fst) :
    headerGet h k = [] := by
  induction h with
  | nil => rfl
  | cons kv rest ih =>
    simp only [List.map_cons, List.mem_cons, not_or] at hk
    have e : kv.1 ≠ k := fun e' => hk.1 e'.symm
    simp [headerGet, e, ih hk.2]

theorem headerGet_copyHeaders (src : Headers) (hnd : (src.map Prod.fst).Nodup)
    (dst : Headers) (k : String) :
    headerGet (copyHeaders src dst) k = headerGet dst k ++ headerGet src k := by
  induction src generalizing dst with
  | nil => simp [copyHeaders, headerGet]
  | cons kv rest ih =>
    simp only [List.map_cons, List.nodup_cons] at hnd
    have step : copyHeaders (kv :: rest) dst = copyHeaders rest (addValues dst kv.1 kv.2) := rfl
    rw [step, ih hnd.2]
    by_cases e : k = kv.1
    · subst e
      rw [headerGet_addValues_self, headerGet_of_not_mem rest _ hnd.1]
      simp [headerGet]
    · rw [headerGet_addValues_other _ _ _ _ e]
      have e' : kv.1 ≠ k := fun e'' => e e''.symm
      simp [headerGet, e']

/-! Lemmas about `ServeMux` routing. -/

theorem strBeq_false_of_ne {t p : String} (h : t ≠ p) : (t == p) = false := by
  simp [h]

theorem ne_of_starts_diff {t p q : String} (ht : strStarts t q = true)
    (hp : strStarts p q = false) : t ≠ p := by
  intro e
  rw [e] at ht
  rw [ht] at hp
  cases hp

theorem ne_append_slash_of_last {t p : String} (h : t.data.getLast? ≠ some '/') :
    t ≠ p ++ "/" := by
  intro e
  apply h
  rw [e, String.data_append]
  exact List.getLast?_concat _

theorem data_eq_of_eq_append_slash {t p : String} (e : t = p ++ "/")
    (hd : t.data = t.data.dropLast ++ ['/']) : p.data = t.data.dropLast := by
  have h := congrArg String.data e
  rw [String.data_append] at h
  rw [hd] at h
  exact (List.append_cancel_right h).symm

theorem slash_ne_append_of_starts {p q : String} (hq : q.data ≠ [])
    (h : strStarts p q = true) : ("/" : String) ≠ p ++ "/" := by
  intro e
  have hdata := congrArg String.data e
  rw [String.data_append] at hdata
  cases hp : p.data with
  | nil =>
    rw [strStarts, hp] at h
    cases hq' : q.data with
    | nil => exact hq hq'
    | cons a as =>
      rw [hq'] at h
      simp at h
  | cons a as =>
    rw [hp] at hdata
    have hl := congrArg List.length hdata
    simp [List.length_append] at hl

theorem sdk_ne_append_slash {p : String} (hne : p ≠ "/SDK_Pilot4") :
    ("/SDK_Pilot4/" : String) ≠ p ++ "/" := by
  intro e
  apply hne
  have h := congrArg String.data e
  rw [String.data_append] at h
  have h2 : ("/SDK_Pilot4" : String).data ++ ('/' :: []) = p.data ++ ('/' :: []) := h
  exact String.ext (List.append_cancel_right h2).symm

theorem lookupExact_none (p : String)
    (h1 : ("/" : String) ≠ p) (h2 : ("/cert.pem" : String) ≠ p)
    (h3 : ("/SDK_Pilot4/" : String) ≠ p)
    (h4 : ("/offscreenworker.js" : String) ≠ p) (h5 : ("/mouseworker.js" : String) ≠ p)
    (h6 : ("/utility.js" : String) ≠ p) (h7 : ("/mediaTypes.js" : String) ≠ p)
    (h8 : ("/rphandlers.js" : String) ≠ p) (h9 : ("/websockethandler.js" : String) ≠ p)
    (h10 : ("/virtualkeyboard.js" : String) ≠ p)
    (h11 : ("/mediaworkerhandler.js" : String) ≠ p) :
    lookupExact p = none := by
  simp [lookupExact, muxPatterns, List.find?, strBeq_false_of_ne h1, strBeq_false_of_ne h2,
    strBeq_false_of_ne h3, strBeq_false_of_ne h4, strBeq_false_of_ne h5, strBeq_false_of_ne h6,
    strBeq_false_of_ne h7, strBeq_false_of_ne h8, strBeq_false_of_ne h9, strBeq_false_of_ne h10,
    strBeq_false_of_ne h11]

theorem muxHandler_console (p : String)
    (hroot : strStarts p "/" = true) (hne : p ≠ "/") (hcert : p ≠ "/cert.pem")
    (hsdk : p ≠ "/SDK_Pilot4") (hallow : isAllowListedPath p = false) :
    muxHandler p = RouteResult.handle HandlerTag.console := by
  simp only [isAllowListedPath, Bool.or_eq_false_iff, beq_eq_false_iff_ne] at hallow
  obtain ⟨⟨⟨⟨⟨⟨⟨⟨hpre, hj1⟩, hj2⟩, hj3⟩, hj4⟩, hj5⟩, hj6⟩, hj7⟩, hj8⟩ := hallow
  have hex : lookupExact p = none :=
    lookupExact_none p (Ne.symm hne)
      (Ne.symm hcert)
      (ne_of_starts_diff (q := "/SDK_Pilot4/") (by decide) hpre)
      (Ne.symm hj1) (Ne.symm hj2) (Ne.symm hj3) (Ne.symm hj4) (Ne.symm hj5)
      (Ne.symm hj6) (Ne.symm hj7) (Ne.symm hj8)
  have hex2 : lookupExact (p ++ "/") = none :=
    lookupExact_none _
      (slash_ne_append_of_starts (q := "/") (by decide) hroot)
      (ne_append_slash_of_last (by decide))
      (sdk_ne_append_slash hsdk)
      (ne_append_slash_of_last (by decide)) (ne_append_slash_of_last (by decide))
      (ne_append_slash_of_last (by decide)) (ne_append_slash_of_last (by decide))
      (ne_append_slash_of_last (by decide)) (ne_append_slash_of_last (by decide))
      (ne_append_slash_of_last (by decide)) (ne_append_slash_of_last (by decide))
  have hsub : subtreeMatch p = some HandlerTag.console := by
    simp [subtreeMatch, hpre, hroot]
  simp [muxHandler, hex, hex2, hsub]

theorem muxHandler_sdk_prefix (p : String)
    (h : strStarts p "/SDK_Pilot4/" = true) :
    muxHandler p = RouteResult.handle HandlerTag.proxy := by
  by_cases hp4 : p = "/SDK_Pilot4/"
  · subst hp4
    decide
  · have hex : lookupExact p = none :=
      lookupExact_none p
        ((ne_of_starts_diff h (by decide)).symm)
        ((ne_of_starts_diff h (by decide)).symm)
        (fun e => hp4 e.symm)
        ((ne_of_starts_diff h (by decide)).symm) ((ne_of_starts_diff h (by decide)).symm)
        ((ne_of_starts_diff h (by decide)).symm) ((ne_of_starts_diff h (by decide)).symm)
        ((ne_of_starts_diff h (by decide)).symm) ((ne_of_starts_diff h (by decide)).symm)
        ((ne_of_starts_diff h (by decide)).symm) ((ne_of_starts_diff h (by decide)).symm)
    have hsdk : p ≠ "/SDK_Pilot4" := by
      intro e
      rw [e] at h
      exact absurd h (by decide)
    have hex2 : lookupExact (p ++ "/") = none :=
      lookupExact_none _
        (slash_ne_append_of_starts (q := "/SDK_Pilot4/") (by decide) h)
        (ne_append_slash_of_last (by decide))
        (sdk_ne_append_slash hsdk)
        (ne_append_slash_of_last (by decide)) (ne_append_slash_of_last (by decide))
        (ne_append_slash_of_last (by decide)) (ne_append_slash_of_last (by decide))
        (ne_append_slash_of_last (by decide)) (ne_append_slash_of_last (by decide))
        (ne_append_slash_of_last (by decide)) (ne_append_slash_of_last (by decide))
    have hsub : subtreeMatch p = some HandlerTag.proxy := by
      simp [subtreeMatch, h]
    simp [muxHandler, hex, hex2, hsub]

theorem muxHandler_allow (p : String) (h : isAllowListedPath p = true) :
    muxHandler p = RouteResult.handle HandlerTag.proxy := by
  simp only [isAllowListedPath, Bool.or_eq_true, beq_iff_eq] at h
  rcases h with ((((((((h | h) | h) | h) | h) | h) | h) | h) | h)
  · exact muxHandler_sdk_prefix p h
  all_goals (subst h; decide)

/-! Lemmas about `GetRPPort`, `initRest` and `initConsole`. -/

theorem GetRPPort_snd (o : RPOutcome) : (GetRPPort o).2 = none := by
  cases o with
  | buildFailed => rfl
  | transportFailed => rfl
  | response p =>
    by_cases hp : p > 0
    · simp [GetRPPort, hp]
    · simp [GetRPPort, hp]

theorem GetRPPort_eta (o : RPOutcome) : GetRPPort o = ((GetRPPort o).1, none) := by
  rw [← GetRPPort_snd o]

theorem initRest_auto (c : Console) (env : InitEnv) (h : c.config.ServerPort = 0)
    (p : Int) (hp : env.osPort = some p) :
    initRest c env = ({ c with
        consoleHTML := generateHTML c.config
        serverPort := p
        handlersInstalled := true }, none) := by
  unfold initRest
  rw [if_pos h, hp]

theorem initRest_auto_fail (c : Console) (env : InitEnv) (h : c.config.ServerPort = 0)
    (hp : env.osPort = none) :
    initRest c env =
      ({ c with consoleHTML := generateHTML c.config }, some InitError.portAlloc) := by
  unfold initRest
  rw [if_pos h, hp]

theorem initRest_explicit (c : Console) (env : InitEnv) (h : ¬ c.config.ServerPort = 0) :
    initRest c env = ({ c with
        consoleHTML := generateHTML c.config
        serverPort := c.config.ServerPort
        handlersInstalled := true }, none) := by
  unfold initRest
  rw [if_neg h]

theorem initConsole_rp0 (c : Console) (env : InitEnv) (h0 : c.config.RPPort = 0) :
    initConsole c env =
      initRest { c with config := { c.config with RPPort := (GetRPPort env.rp).1 } } env := by
  unfold initConsole
  rw [if_pos h0, GetRPPort_eta env.rp]

theorem initConsole_rpne (c : Console) (env : InitEnv) (h0 : ¬ c.config.RPPort = 0) :
    initConsole c env = initRest c env := by
  unfold initConsole
  rw [if_neg h0]

theorem initRest_snd_ne_rpLookup (c : Console) (env : InitEnv) :
    (initRest c env).2 ≠ some InitError.rpLookup := by
  by_cases hs : c.config.ServerPort = 0
  · cases ho : env.osPort with
    | none => rw [initRest_auto_fail c env hs ho]; simp
    | some p => rw [initRest_auto c env hs p ho]; simp
  · rw [initRest_explicit c env hs]; simp

theorem initConsole_snd_ne_rpLookup (c : Console) (env : InitEnv) :
    (initConsole c env).2 ≠ some InitError.rpLookup := by
  by_cases h0 : c.config.RPPort = 0
  · rw [initConsole_rp0 c env h0]
    exact initRest_snd_ne_rpLookup _ _
  · rw [initConsole_rpne c env h0]
    exact initRest_snd_ne_rpLookup _ _

theorem initRest_config (c : Console) (env : InitEnv) :
    (initRest c env).1.config = c.config ∧ (initRest c env).1.server = c.server := by
  by_cases hs : c.config.ServerPort = 0
  · cases ho : env.osPort with
    | none => rw [initRest_auto_fail c env hs ho]; exact ⟨rfl, rfl⟩
    | some p => rw [initRest_auto c env hs p ho]; exact ⟨rfl, rfl⟩
  · rw [initRest_explicit c env hs]; exact ⟨rfl, rfl⟩

theorem initRest_html (c : Console) (env : InitEnv) :
    (initRest c env).1.consoleHTML = generateHTML c.config := by
  by_cases hs : c.config.ServerPort = 0
  · cases ho : env.osPort with
    | none => rw [initRest_auto_fail c env hs ho]
    | some p => rw [initRest_auto c env hs p ho]
  · rw [initRest_explicit c env hs]

theorem initRest_installed (c : Console) (env : InitEnv)
    (h : (initRest c env).2 = none) :
    (initRest c env).1.handlersInstalled = true := by
  by_cases hs : c.config.ServerPort = 0
  · cases ho : env.osPort with
    | none =>
      rw [initRest_auto_fail c env hs ho] at h
      cases h
    | some p => rw [initRest_auto c env hs p ho]
  · rw [initRest_explicit c env hs]

theorem initConsole_config_frame (c : Console) (env : InitEnv) :
    (initConsole c env).1.config.BMCIP = c.config.BMCIP ∧
    (initConsole c env).1.config.Username = c.config.Username ∧
    (initConsole c env).1.config.Password = c.config.Password ∧
    (initConsole c env).1.config.UseFirefox = c.config.UseFirefox ∧
    (initConsole c env).1.config.ServerPort = c.config.ServerPort ∧
    (initConsole c env).1.server = c.server := by
  by_cases h0 : c.config.RPPort = 0
  · rw [initConsole_rp0 c env h0]
    have hcf := (initRest_config { c with config := { c.config with RPPort := (GetRPPort env.rp).1 } } env).1
    have hsv := (initRest_config { c with config := { c.config with RPPort := (GetRPPort env.rp).1 } } env).2
    rw [hcf, hsv]
    exact ⟨rfl, rfl, rfl, rfl, rfl, rfl⟩
  · rw [initConsole_rpne c env h0]
    have hcf := (initRest_config c env).1
    have hsv := (initRest_config c env).2
    rw [hcf, hsv]
    exact ⟨rfl, rfl, rfl, rfl, rfl, rfl⟩

theorem initConsole_rpport_preserved (c : Console) (env : InitEnv)
    (h0 : c.config.RPPort ≠ 0) :
    (initConsole c env).1.config.RPPort = c.config.RPPort := by
  rw [initConsole_rpne c env h0, (initRest_config c env).1]

theorem initConsole_rpport_resolved (c : Console) (env : InitEnv)
    (h0 : c.config.RPPort = 0) :
    (initConsole c env).1.config.RPPort = (GetRPPort env.rp).1 := by
  rw [initConsole_rp0 c env h0,
    (initRest_config { c with config := { c.config with RPPort := (GetRPPort env.rp).1 } } env).1]

theorem initConsole_html (c : Console) (env : InitEnv) :
    (initConsole c env).1.consoleHTML = generateHTML (initConsole c env).1.config := by
  by_cases h0 : c.config.RPPort = 0
  · rw [initConsole_rp0 c env h0]
    rw [initRest_html, (initRest_config _ _).1]
  · rw [initConsole_rpne c env h0]
    rw [initRest_html, (initRest_config c env).1]

theorem initConsole_installed (c : Console) (env : InitEnv)
    (h : (initConsole c env).2 = none) :
    (initConsole c env).1.handlersInstalled = true := by
  by_cases h0 : c.config.RPPort = 0
  · rw [initConsole_rp0 c env h0] at h ⊢
    exact initRest_installed _ _ h
  · rw [initConsole_rpne c env h0] at h ⊢
    exact initRest_installed _ _ h

theorem initConsole_serverPort_explicit (c : Console) (env : InitEnv)
    (h : c.config.ServerPort ≠ 0) :
    (initConsole c env).2 = none ∧
    (initConsole c env).1.serverPort = c.config.ServerPort := by
  by_cases h0 : c.config.RPPort = 0
  · rw [initConsole_rp0 c env h0,
      initRest_explicit { c with config := { c.config with RPPort := (GetRPPort env.rp).1 } } env h]
    exact ⟨rfl, rfl⟩
  · rw [initConsole_rpne c env h0, initRest_explicit c env h]
    exact ⟨rfl, rfl⟩

/-! Further `initConsole` port lemmas used by the port-invariant claims. -/

theorem initConsole_serverPort_auto (c : Console) (env : InitEnv)
    (hs : c.config.ServerPort = 0) (p : Int) (hp : env.osPort = some p) :
    (initConsole c env).1.serverPort = p := by
  by_cases h0 : c.config.RPPort = 0
  · rw [initConsole_rp0 c env h0,
      initRest_auto { c with config := { c.config with RPPort := (GetRPPort env.rp).1 } } env hs p hp]
  · rw [initConsole_rpne c env h0, initRest_auto c env hs p hp]

theorem initConsole_snd_auto_fail (c : Console) (env : InitEnv)
    (hs : c.config.ServerPort = 0) (hp : env.osPort = none) :
    (initConsole c env).2 = some InitError.portAlloc := by
  by_cases h0 : c.config.RPPort = 0
  · rw [initConsole_rp0 c env h0,
      initRest_auto_fail { c with config := { c.config with RPPort := (GetRPPort env.rp).1 } } env hs hp]
  · rw [initConsole_rpne c env h0, initRest_auto_fail c env hs hp]

theorem GetRPPort_fst_bounds (o : RPOutcome)
    (hdecode : ∀ p : Int, o = RPOutcome.response p → p ≤ 65535) :
    1 ≤ (GetRPPort o).1 ∧ (GetRPPort o).1 ≤ 65535 := by
  cases o with
  | buildFailed => exact ⟨by decide, by decide⟩
  | transportFailed => exact ⟨by decide, by decide⟩
  | response p =>
    by_cases hp : p > 0
    · simp only [GetRPPort, if_pos hp]
      exact ⟨hp, hdecode p rfl⟩
    · simp only [GetRPPort, if_neg hp]
      exact ⟨by decide, by decide⟩

/-- C2: the remote-presence port lookup returns the decoded port exactly when
the upstream responded with a positive value, returns the default 3900 when
the request cannot be built, the transport fails, or the decoded value is
non-positive, returns a nil error on every path, and consequently Initialize
can never fail with the RP-lookup error. -/
theorem c2_rp_port_lookup :
    (∀ p : Int, 0 < p → GetRPPort (RPOutcome.response p) = (p, none)) ∧
    (∀ p : Int, ¬ 0 < p → GetRPPort (RPOutcome.response p) = (3900, none)) ∧
    GetRPPort RPOutcome.buildFailed = (3900, none) ∧
    GetRPPort RPOutcome.transportFailed = (3900, none) ∧
    (∀ o : RPOutcome, (GetRPPort o).2 = none) ∧
    (∀ (cfg : ConsoleConfig) (env : InitEnv),
      (initConsole (NewConsole cfg) env).2 ≠ some InitError.rpLookup) := by
  refine ⟨?_, ?_, rfl, rfl, GetRPPort_snd, ?_⟩
  · intro p hp
    simp [GetRPPort, hp]
  · intro p hp
    simp [GetRPPort, hp]
  · intro cfg env
    exact initConsole_snd_ne_rpLookup _ _

/-- Witness for C2 at concrete inputs. -/
theorem c2_rp_port_lookup_witness :
    GetRPPort (RPOutcome.response 3901) = (3901, none) ∧
    GetRPPort (RPOutcome.response (-7)) = (3900, none) ∧
    (initConsole (NewConsole cfgW0) envW3901).2 ≠ some InitError.rpLookup :=
  ⟨c2_rp_port_lookup.1 3901 (by decide),
   c2_rp_port_lookup.2.1 (-7) (by decide),
   c2_rp_port_lookup.2.2.2.2.2 _ _⟩

/-- C4 counterexample: starting a session that was already started is not
rejected — the session has a live server handle, yet the second Start still
returns a nil error. -/
theorem c4_double_start_counterexample :
    ((Start (initConsole (NewConsole cfgW) envW).1).1.server ≠ none) ∧
    (Start ((Start (initConsole (NewConsole cfgW) envW).1).1)).2 = none :=
  ⟨by decide, rfl⟩

/-- C4 amended: a second Start is not rejected with an error: on a session
whose server handle is already live, Start still returns nil and silently
replaces the handle with a fresh server for the same port. -/
theorem c4_double_start_amended (c : Console) (_started : c.server ≠ none) :
    (Start c).2 = none ∧
    (Start c).1.server = some { addr := ":" ++ Int.repr c.serverPort } :=
  ⟨rfl, rfl⟩

/-- Witness for the amended C4 on a concrete started session. -/
theorem c4_double_start_amended_witness :
    ((Start (NewConsole cfgW)).1.server ≠ none) ∧
    ((Start ((Start (NewConsole cfgW)).1)).2 = none ∧
      (Start ((Start (NewConsole cfgW)).1)).1.server =
        some { addr := ":" ++ Int.repr ((Start (NewConsole cfgW)).1).serverPort }) :=
  ⟨by decide, c4_double_start_amended _ (by decide)⟩

/-- C5 counterexample: Initialize performs no range check on the configured
ports — a configured listen port of 70000 survives a successful Initialize,
leaving the listen-port field outside [1, 65535]. -/
theorem c5_port_invariant_counterexample :
    ((initConsole (NewConsole cfgBadPort) envW).2 = none) ∧
    ((initConsole (NewConsole cfgBadPort) envW).1.serverPort = 70000) ∧
    ¬ ((initConsole (NewConsole cfgBadPort) envW).1.serverPort ≤ 65535) :=
  ⟨rfl, rfl, by decide⟩

/-- C5 amended: after a successful Initialize both port fields lie in
[1, 65535], provided the configured ports are unset or already in range, any
upstream-decoded port value is at most 65535, and the OS-assigned ephemeral
port is in range — conditions the code itself never checks. -/
theorem c5_port_invariant_amended (cfg : ConsoleConfig) (env : InitEnv)
    (hrp : cfg.RPPort = 0 ∨ (1 ≤ cfg.RPPort ∧ cfg.RPPort ≤ 65535))
    (hsp : cfg.ServerPort = 0 ∨ (1 ≤ cfg.ServerPort ∧ cfg.ServerPort ≤ 65535))
    (hdecode : ∀ p : Int, env.rp = RPOutcome.response p → p ≤ 65535)
    (hos : ∀ p : Int, env.osPort = some p → 1 ≤ p ∧ p ≤ 65535)
    (hok : (initConsole (NewConsole cfg) env).2 = none) :
    (1 ≤ (initConsole (NewConsole cfg) env).1.config.RPPort ∧
      (initConsole (NewConsole cfg) env).1.config.RPPort ≤ 65535) ∧
    (1 ≤ (initConsole (NewConsole cfg) env).1.serverPort ∧
      (initConsole (NewConsole cfg) env).1.serverPort ≤ 65535) := by
  constructor
  · rcases hrp with h0 | hbound
    · rw [initConsole_rpport_resolved (NewConsole cfg) env h0]
      exact GetRPPort_fst_bounds env.rp (fun p hp => hdecode p hp)
    · have hne : (NewConsole cfg).config.RPPort ≠ 0 := by
        show cfg.RPPort ≠ 0
        omega
      rw [initConsole_rpport_preserved (NewConsole cfg) env hne]
      exact hbound
  · by_cases hs0 : cfg.ServerPort = 0
    · cases ho : env.osPort with
      | none =>
        rw [initConsole_snd_auto_fail (NewConsole cfg) env hs0 ho] at hok
        cases hok
      | some p =>
        rw [initConsole_serverPort_auto (NewConsole cfg) env hs0 p ho]
        exact hos p ho
    · rw [(initConsole_serverPort_explicit (NewConsole cfg) env hs0).2]
      rcases hsp with h | hbound
      · exact absurd h hs0
      · exact hbound

/-- Witness for the amended C5 at a concrete configuration and environment. -/
theorem c5_port_invariant_amended_witness :
    ((1 : Int) ≤ (initConsole (NewConsole cfgW0) envW3901).1.config.RPPort ∧
      (initConsole (NewConsole cfgW0) envW3901).1.config.RPPort ≤ 65535) ∧
    ((1 : Int) ≤ (initConsole (NewConsole cfgW0) envW3901).1.serverPort ∧
      (initConsole (NewConsole cfgW0) envW3901).1.serverPort ≤ 65535) :=
  c5_port_invariant_amended _ _
    (Or.inl rfl) (Or.inl rfl)
    (fun p hp => by injection hp with h; rw [← h]; decide)
    (fun p hp => by injection hp with h; rw [← h]; exact ⟨by decide, by decide⟩)
    rfl

/-- C7: for any configuration with an explicit non-zero listen port,
Initialize succeeds and GetPort returns exactly that configured port. -/
theorem c7_explicit_port (cfg : ConsoleConfig) (env : InitEnv)
    (h : cfg.ServerPort ≠ 0) :
    (initConsole (NewConsole cfg) env).2 = none ∧
    GetPort (initConsole (NewConsole cfg) env).1 = cfg.ServerPort :=
  initConsole_serverPort_explicit (NewConsole cfg) env h

/-- Witness for C7 with listen port 8443 and a failing environment. -/
theorem c7_explicit_port_witness :
    ((initConsole (NewConsole cfgWrp0) envWfail).2 = none) ∧
    GetPort (initConsole (NewConsole cfgWrp0) envWfail).1 = 8443 :=
  c7_explicit_port _ _ (by decide)

/-- C8: Stop on a session that was never started is a no-op returning no
error and leaving the session state unchanged. -/
theorem c8_stop_before_start (c : Console) (h : c.server = none) :
    Stop c = (c, none) := by
  unfold Stop
  rw [h]

/-- Witness for C8 on a freshly created session. -/
theorem c8_stop_before_start_witness :
    ((NewConsole cfgW).server = none) ∧
    Stop (NewConsole cfgW) = (NewConsole cfgW, none) :=
  ⟨rfl, c8_stop_before_start _ rfl⟩

/-! Lemmas about `serve` and the proxy handler. -/

theorem serve_console_route (c : Console) (net : NetEnv) (r : Request)
    (hinst : c.handlersInstalled = true)
    (hroute : muxHandler r.path = RouteResult.handle HandlerTag.console) :
    serve c net r = (consoleResponse c, []) := by
  simp [serve, hinst, hroute]

theorem serve_proxy_route (c : Console) (net : NetEnv) (r : Request)
    (hinst : c.handlersInstalled = true)
    (hroute : muxHandler r.path = RouteResult.handle HandlerTag.proxy) :
    serve c net r = proxySDKHandler c net r := by
  simp [serve, hinst, hroute]

theorem proxySDKHandler_success (c : Console) (net : NetEnv) (r : Request)
    (resp : UpstreamResponse)
    (hm : validMethod r.method = true)
    (hu : net.urlParses ("https://" ++ c.config.BMCIP ++ r.path) = true)
    (hup : net.upstream ⟨r.method, "https://" ++ c.config.BMCIP ++ r.path,
        copyHeaders r.headers [], ""⟩ = some resp) :
    proxySDKHandler c net r =
      ({ status := resp.status,
         headers :=
           if strEnds r.path ".js" then
             headerSet (copyHeaders resp.headers []) "Content-Type" "application/javascript"
           else copyHeaders resp.headers [],
         body := resp.body },
       [⟨r.method, "https://" ++ c.config.BMCIP ++ r.path, copyHeaders r.headers [], ""⟩]) := by
  unfold proxySDKHandler
  rw [hm, hu]
  simp only [Bool.and_self, if_true]
  rw [hup]

/-- C1 counterexample: on a started session, a request for a path outside
the allow-list (here /doesnotexist) is answered by the root console handler
with status 200 — not with a not-found response — although the upstream is
indeed not contacted. -/
theorem c1_unmatched_path_counterexample :
    ((serve (Start (initConsole (NewConsole cfgW) envW).1).1 netNone reqOther).1.status
      = 200) ∧
    ((serve (Start (initConsole (NewConsole cfgW) envW).1).1 netNone reqOther).1.status
      ≠ 404) ∧
    ((serve (Start (initConsole (NewConsole cfgW) envW).1).1 netNone reqOther).2 = []) ∧
    notFoundResponse.status = 404 :=
  ⟨rfl, by decide, rfl, rfl⟩

/-- C1 amended: on a started session, every request whose (clean) path is
not the root, not /cert.pem, not /SDK_Pilot4, and not allow-listed is
answered by the root console handler — the rendered page with status 200 —
and the upstream BMC is not contacted.  (The platform-default not-found
behavior never applies, because the console handler is registered for the
catch-all pattern "/".) -/
theorem c1_unmatched_path_amended (cfg : ConsoleConfig) (env : InitEnv)
    (net : NetEnv) (r : Request)
    (hok : (initConsole (NewConsole cfg) env).2 = none)
    (hroot : strStarts r.path "/" = true)
    (h1 : r.path ≠ "/") (h2 : r.path ≠ "/cert.pem") (h3 : r.path ≠ "/SDK_Pilot4")
    (h4 : isAllowListedPath r.path = false) :
    serve (Start (initConsole (NewConsole cfg) env).1).1 net r =
      (consoleResponse (Start (initConsole (NewConsole cfg) env).1).1, []) ∧
    (consoleResponse (Start (initConsole (NewConsole cfg) env).1).1).status = 200 ∧
    (consoleResponse (Start (initConsole (NewConsole cfg) env).1).1).body =
      (initConsole (NewConsole cfg) env).1.consoleHTML := by
  have hinst : (Start (initConsole (NewConsole cfg) env).1).1.handlersInstalled = true :=
    initConsole_installed _ _ hok
  refine ⟨?_, rfl, rfl⟩
  exact serve_console_route _ net r hinst (muxHandler_console r.path hroot h1 h2 h3 h4)

/-- Witness for the amended C1 on a concrete session and request. -/
theorem c1_unmatched_path_amended_witness :
    (serve (Start (initConsole (NewConsole cfgW) envW).1).1 netNone reqOther =
      (consoleResponse (Start (initConsole (NewConsole cfgW) envW).1).1, []) ∧
    (consoleResponse (Start (initConsole (NewConsole cfgW) envW).1).1).status = 200 ∧
    (consoleResponse (Start (initConsole (NewConsole cfgW) envW).1).1).body =
      (initConsole (NewConsole cfgW) envW).1.consoleHTML) :=
  c1_unmatched_path_amended cfgW envW netNone reqOther rfl (by decide)
    (by decide) (by decide) (by decide) (by decide)

/-- C3: every proxied request to an allow-listed sub-path is forwarded to
https://<target-host><original-path> with the original method, all request
headers copied unmodified and an empty body; the upstream status code, all
upstream response headers and the full response body are copied back; and
when the path ends in .js the response content-type is forced to
application/javascript regardless of what the upstream sent. -/
theorem c3_proxy_forward (c : Console) (net : NetEnv) (r : Request)
    (resp : UpstreamResponse)
    (hpath : isAllowListedPath r.path = true)
    (hm : validMethod r.method = true)
    (hu : net.urlParses ("https://" ++ c.config.BMCIP ++ r.path) = true)
    (hup : net.upstream ⟨r.method, "https://" ++ c.config.BMCIP ++ r.path,
        copyHeaders r.headers [], ""⟩ = some resp)
    (hrh : (r.headers.map Prod.fst).Nodup)
    (hsh : (resp.headers.map Prod.fst).Nodup)
    (hinst : c.handlersInstalled = true) :
    ((serve c net r).2 =
      [⟨r.method, "https://" ++ c.config.BMCIP ++ r.path, copyHeaders r.headers [], ""⟩]) ∧
    (∀ k, headerGet (copyHeaders r.headers []) k = headerGet r.headers k) ∧
    ((serve c net r).1.status = resp.status) ∧
    ((serve c net r).1.body = resp.body) ∧
    (∀ k, k ≠ "Content-Type" →
      headerGet (serve c net r).1.headers k = headerGet resp.headers k) ∧
    (strEnds r.path ".js" = true →
      headerGet (serve c net r).1.headers "Content-Type" = ["application/javascript"]) ∧
    (strEnds r.path ".js" = false →
      ∀ k, headerGet (serve c net r).1.headers k = headerGet resp.headers k) := by
  have hserve : serve c net r = proxySDKHandler c net r :=
    serve_proxy_route c net r hinst (muxHandler_allow r.path hpath)
  have hprox := proxySDKHandler_success c net r resp hm hu hup
  rw [hserve, hprox]
  have hcopyreq : ∀ k, headerGet (copyHeaders r.headers []) k = headerGet r.headers k := by
    intro k
    rw [headerGet_copyHeaders r.headers hrh [] k]
    rfl
  have hcopyresp : ∀ k, headerGet (copyHeaders resp.headers []) k = headerGet resp.headers k := by
    intro k
    rw [headerGet_copyHeaders resp.headers hsh [] k]
    rfl
  refine ⟨rfl, hcopyreq, rfl, rfl, ?_, ?_, ?_⟩
  · intro k hk
    by_cases hjs : strEnds r.path ".js"
    · simp only [hjs, if_true]
      rw [headerGet_set_other _ _ _ _ hk, hcopyresp k]
    · simp only [hjs, if_false]
      exact hcopyresp k
  · intro hjs
    simp only [hjs, if_true]
    rw [headerGet_set_self]
  · intro hjs
    simp only [hjs, if_false]
    exact hcopyresp

/-- Witness for C3: a GET for /utility.js against a concrete session. -/
theorem c3_proxy_forward_witness :
    ((serve (Start (initConsole (NewConsole cfgW) envW).1).1 netW reqJS).2 =
      [⟨reqJS.method, "https://" ++ cfgW.BMCIP ++ reqJS.path,
        copyHeaders reqJS.headers [], ""⟩]) ∧
    ((serve (Start (initConsole (NewConsole cfgW) envW).1).1 netW reqJS).1.status
      = respW.status) ∧
    ((serve (Start (initConsole (NewConsole cfgW) envW).1).1 netW reqJS).1.body
      = respW.body) ∧
    headerGet (serve (Start (initConsole (NewConsole cfgW) envW).1).1 netW reqJS).1.headers
      "Content-Type" = ["application/javascript"] := by
  have h := c3_proxy_forward (Start (initConsole (NewConsole cfgW) envW).1).1 netW reqJS
    respW (by decide) (by decide) rfl (by decide) (by decide) (by decide)
    (initConsole_installed (NewConsole cfgW) envW rfl)
  exact ⟨h.1, h.2.2.1, h.2.2.2.1, h.2.2.2.2.2.1 (by decide)⟩

/-- C10: every upstream request the relay ever issues carries an empty body —
any caller-supplied request body is dropped — and forwards exactly the
caller's method, the URL formed from the target host and the original path,
and a copy of the caller's headers. -/
theorem c10_upstream_body_empty (c : Console) (net : NetEnv) (r : Request)
    (q : UpstreamRequest) (hq : q ∈ (serve c net r).2) :
    q.body = "" ∧ q.method = r.method ∧
    q.url = "https://" ++ c.config.BMCIP ++ r.path ∧
    q.headers = copyHeaders r.headers [] := by
  unfold serve at hq
  by_cases hinst : c.handlersInstalled
  · rw [if_pos hinst] at hq
    rcases hmux : muxHandler r.path with hh | loc | _
    · rw [hmux] at hq
      cases hh with
      | console => simp at hq
      | cert => simp at hq
      | proxy =>
        unfold proxySDKHandler at hq
        by_cases hok : validMethod r.method &&
            net.urlParses ("https://" ++ c.config.BMCIP ++ r.path)
        · rw [if_pos hok] at hq
          cases hup : net.upstream ⟨r.method, "https://" ++ c.config.BMCIP ++ r.path,
              copyHeaders r.headers [], ""⟩ with
          | none =>
            rw [hup] at hq
            simp at hq
            rw [hq]
            exact ⟨rfl, rfl, rfl, rfl⟩
          | some resp =>
            rw [hup] at hq
            simp at hq
            rw [hq]
            exact ⟨rfl, rfl, rfl, rfl⟩
        · rw [if_neg hok] at hq
          simp at hq
    · rw [hmux] at hq
      simp at hq
    · rw [hmux] at hq
      simp at hq
  · rw [if_neg hinst] at hq
    simp at hq

/-- Witness for C10: the upstream request actually sent for /utility.js has
an empty body even though the caller supplied one. -/
theorem c10_upstream_body_empty_witness :
    ((⟨reqJS.method, "https://" ++ cfgW.BMCIP ++ reqJS.path,
        copyHeaders reqJS.headers [], ""⟩ : UpstreamRequest) ∈
      (serve (Start (initConsole (NewConsole cfgW) envW).1).1 netW reqJS).2) ∧
    (⟨reqJS.method, "https://" ++ cfgW.BMCIP ++ reqJS.path,
        copyHeaders reqJS.headers [], ""⟩ : UpstreamRequest).body = "" ∧
    reqJS.body ≠ "" :=
  ⟨by decide,
   (c10_upstream_body_empty (Start (initConsole (NewConsole cfgW) envW).1).1 netW reqJS
     _ (by decide)).1,
   by decide⟩

/-! Containment and scan lemmas for the rendered page. -/

theorem generateHTML_contains_bmcip (cfg : ConsoleConfig) :
    strContains (generateHTML cfg) cfg.BMCIP := by
  refine ⟨tmplSeg0.data,
    (tmplSeg1 ++ cfg.BMCIP ++ tmplSeg2 ++ Int.repr cfg.RPPort ++ tmplSeg3 ++
      cfg.Username ++ tmplSeg4 ++ cfg.Password ++ tmplSeg5).data, ?_⟩
  simp [generateHTML, String.data_append, List.append_assoc]

theorem generateHTML_contains_username (cfg : ConsoleConfig) :
    strContains (generateHTML cfg) cfg.Username := by
  refine ⟨(tmplSeg0 ++ cfg.BMCIP ++ tmplSeg1 ++ cfg.BMCIP ++ tmplSeg2 ++
      Int.repr cfg.RPPort ++ tmplSeg3).data,
    (tmplSeg4 ++ cfg.Password ++ tmplSeg5).data, ?_⟩
  simp [generateHTML, String.data_append, List.append_assoc]

theorem generateHTML_noBB (cfg : ConsoleConfig) (hB : safeStr cfg.BMCIP = true)
    (hU : safeStr cfg.Username = true) (hP : safeStr cfg.Password = true) :
    noBB (generateHTML cfg).data = true := by
  have hB1 := noBB_of_safeStr hB
  have hB2 := headNot_of_safeStr hB
  have h1 := noBB_str_append noBB_tmplSeg0 hB1 hB2
  have h2 := noBB_str_append h1 noBB_tmplSeg1 headNotBrace_tmplSeg1
  have h3 := noBB_str_append h2 hB1 hB2
  have h4 := noBB_str_append h3 noBB_tmplSeg2 headNotBrace_tmplSeg2
  have h5 := noBB_str_append h4 (noBB_intRepr cfg.RPPort) (headNot_intRepr cfg.RPPort)
  have h6 := noBB_str_append h5 noBB_tmplSeg3 headNotBrace_tmplSeg3
  have h7 := noBB_str_append h6 (noBB_of_safeStr hU) (headNot_of_safeStr hU)
  have h8 := noBB_str_append h7 noBB_tmplSeg4 headNotBrace_tmplSeg4
  have h9 := noBB_str_append h8 (noBB_of_safeStr hP) (headNot_of_safeStr hP)
  have h10 := noBB_str_append h9 noBB_tmplSeg5 headNotBrace_tmplSeg5
  exact h10

/-- C9: Initialize leaves the target host, username, password,
browser-preference flag and the configured listen-port field untouched,
fills the remote-presence port only when it was unset, renders the page
exactly once from the final configuration, and after a successful
initialization the root handler serves exactly that page with no upstream
contact. -/
theorem c9_init_frame (cfg : ConsoleConfig) (env : InitEnv) :
    (initConsole (NewConsole cfg) env).1.config.BMCIP = cfg.BMCIP ∧
    (initConsole (NewConsole cfg) env).1.config.Username = cfg.Username ∧
    (initConsole (NewConsole cfg) env).1.config.Password = cfg.Password ∧
    (initConsole (NewConsole cfg) env).1.config.UseFirefox = cfg.UseFirefox ∧
    (initConsole (NewConsole cfg) env).1.config.ServerPort = cfg.ServerPort ∧
    (cfg.RPPort ≠ 0 → (initConsole (NewConsole cfg) env).1.config.RPPort = cfg.RPPort) ∧
    ((initConsole (NewConsole cfg) env).1.consoleHTML =
      generateHTML (initConsole (NewConsole cfg) env).1.config) ∧
    ((initConsole (NewConsole cfg) env).2 = none → ∀ (net : NetEnv) (r : Request),
      r.path = "/" →
      serve (initConsole (NewConsole cfg) env).1 net r =
        (consoleResponse (initConsole (NewConsole cfg) env).1, []) ∧
      (consoleResponse (initConsole (NewConsole cfg) env).1).body =
        (initConsole (NewConsole cfg) env).1.consoleHTML) := by
  have hf := initConsole_config_frame (NewConsole cfg) env
  refine ⟨hf.1, hf.2.1, hf.2.2.1, hf.2.2.2.1, hf.2.2.2.2.1, ?_, ?_, ?_⟩
  · intro h
    exact initConsole_rpport_preserved (NewConsole cfg) env h
  · exact initConsole_html _ _
  · intro hok net r hr
    have hinst := initConsole_installed _ _ hok
    refine ⟨?_, rfl⟩
    refine serve_console_route _ net r hinst ?_
    rw [hr]
    decide

/-- Witness for C9 at a concrete configuration with a preset RP port. -/
theorem c9_init_frame_witness :
    ((initConsole (NewConsole cfgW) envW).1.config.BMCIP = cfgW.BMCIP) ∧
    ((initConsole (NewConsole cfgW) envW).1.config.RPPort = cfgW.RPPort) ∧
    (serve (initConsole (NewConsole cfgW) envW).1 netNone reqRoot =
      (consoleResponse (initConsole (NewConsole cfgW) envW).1, [])) :=
  ⟨(c9_init_frame cfgW envW).1,
   (c9_init_frame cfgW envW).2.2.2.2.2.1 (by decide),
   ((c9_init_frame cfgW envW).2.2.2.2.2.2.2 rfl netNone reqRoot rfl).1⟩

/-- C6 counterexample: the page substitution is a single literal pass, so a
configuration whose target-host field is itself the text of a placeholder
token yields a served root page that does contain a literal placeholder
token, contradicting the claim's universal "does not contain the literal
placeholder tokens". -/
theorem c6_root_page_counterexample :
    ((serve (Start (initConsole (NewConsole cfgInject) envW).1).1 netNone reqRoot).1.status
      = 200) ∧
    ((serve (Start (initConsole (NewConsole cfgInject) envW).1).1 netNone reqRoot).1.body
      = (initConsole (NewConsole cfgInject) envW).1.consoleHTML) ∧
    strContains
      (serve (Start (initConsole (NewConsole cfgInject) envW).1).1 netNone reqRoot).1.body
      "\x7b\x7b.BMCUsername\x7d\x7d" := by
  refine ⟨rfl, rfl, ?_⟩
  have hb : (serve (Start (initConsole (NewConsole cfgInject) envW).1).1 netNone reqRoot).1.body
      = generateHTML cfgInject := rfl
  rw [hb]
  exact generateHTML_contains_bmcip cfgInject

/-- C6 amended: for configurations whose host, username and password consist
of characters the template engine leaves unchanged, a root request to a
started session returns status 200 with content-type text/html and the
rendered page as body; the body contains the configured host and username
and contains none of the four literal placeholder tokens. -/
theorem c6_root_page_amended (cfg : ConsoleConfig) (env : InitEnv) (net : NetEnv)
    (r : Request)
    (hB : safeStr cfg.BMCIP = true) (hU : safeStr cfg.Username = true)
    (hP : safeStr cfg.Password = true)
    (hok : (initConsole (NewConsole cfg) env).2 = none)
    (hr : r.path = "/") :
    serve (Start (initConsole (NewConsole cfg) env).1).1 net r =
      ({ status := 200, headers := [("Content-Type", ["text/html"])],
         body := (initConsole (NewConsole cfg) env).1.consoleHTML }, []) ∧
    ((initConsole (NewConsole cfg) env).1.consoleHTML =
      generateHTML (initConsole (NewConsole cfg) env).1.config) ∧
    strContains (initConsole (NewConsole cfg) env).1.consoleHTML cfg.BMCIP ∧
    strContains (initConsole (NewConsole cfg) env).1.consoleHTML cfg.Username ∧
    ¬ strContains (initConsole (NewConsole cfg) env).1.consoleHTML "\x7b\x7b.BMCIP\x7d\x7d" ∧
    ¬ strContains (initConsole (NewConsole cfg) env).1.consoleHTML "\x7b\x7b.RPPort\x7d\x7d" ∧
    ¬ strContains (initConsole (NewConsole cfg) env).1.consoleHTML "\x7b\x7b.BMCUsername\x7d\x7d" ∧
    ¬ strContains (initConsole (NewConsole cfg) env).1.consoleHTML "\x7b\x7b.BMCPassword\x7d\x7d" := by
  have hf := initConsole_config_frame (NewConsole cfg) env
  have hhtml : (initConsole (NewConsole cfg) env).1.consoleHTML =
      generateHTML (initConsole (NewConsole cfg) env).1.config := initConsole_html _ _
  have hB' : safeStr (initConsole (NewConsole cfg) env).1.config.BMCIP = true := by
    rw [hf.1]; exact hB
  have hU' : safeStr (initConsole (NewConsole cfg) env).1.config.Username = true := by
    rw [hf.2.1]; exact hU
  have hP' : safeStr (initConsole (NewConsole cfg) env).1.config.Password = true := by
    rw [hf.2.2.1]; exact hP
  have hnobb : noBB ((initConsole (NewConsole cfg) env).1.consoleHTML).data = true := by
    rw [hhtml]
    exact generateHTML_noBB _ hB' hU' hP'
  have hinst : (Start (initConsole (NewConsole cfg) env).1).1.handlersInstalled = true :=
    initConsole_installed _ _ hok
  refine ⟨?_, hhtml, ?_, ?_, ?_, ?_, ?_, ?_⟩
  · exact serve_console_route _ net r hinst (by rw [hr]; decide)
  · rw [hhtml]
    have := generateHTML_contains_bmcip (initConsole (NewConsole cfg) env).1.config
    rw [hf.1] at this
    exact this
  · rw [hhtml]
    have := generateHTML_contains_username (initConsole (NewConsole cfg) env).1.config
    rw [hf.2.1] at this
    exact this
  · exact not_contains_token hnobb (by decide)
  · exact not_contains_token hnobb (by decide)
  · exact not_contains_token hnobb (by decide)
  · exact not_contains_token hnobb (by decide)

/-- Witness for the amended C6 on a concrete session. -/
theorem c6_root_page_amended_witness :
    (safeStr cfgW.BMCIP = true) ∧ (safeStr cfgW.Username = true) ∧
    (safeStr cfgW.Password = true) ∧
    ((initConsole (NewConsole cfgW) envW).2 = none) ∧
    (serve (Start (initConsole (NewConsole cfgW) envW).1).1 netNone reqRoot =
      ({ status := 200, headers := [("Content-Type", ["text/html"])],
         body := (initConsole (NewConsole cfgW) envW).1.consoleHTML }, []) ∧
    ((initConsole (NewConsole cfgW) envW).1.consoleHTML =
      generateHTML (initConsole (NewConsole cfgW) envW).1.config) ∧
    strContains (initConsole (NewConsole cfgW) envW).1.consoleHTML cfgW.BMCIP ∧
    strContains (initConsole (NewConsole cfgW) envW).1.consoleHTML cfgW.Username ∧
    ¬ strContains (initConsole (NewConsole cfgW) envW).1.consoleHTML "\x7b\x7b.BMCIP\x7d\x7d" ∧
    ¬ strContains (initConsole (NewConsole cfgW) envW).1.consoleHTML "\x7b\x7b.RPPort\x7d\x7d" ∧
    ¬ strContains (initConsole (NewConsole cfgW) envW).1.consoleHTML "\x7b\x7b.BMCUsername\x7d\x7d" ∧
    ¬ strContains (initConsole (NewConsole cfgW) envW).1.consoleHTML "\x7b\x7b.BMCPassword\x7d\x7d") :=
  ⟨by decide, by decide, by decide, rfl,
   c6_root_page_amended cfgW envW netNone reqRoot (by decide) (by decide) (by decide)
     rfl rfl⟩
